import Mathlib

/-!
Verification of the Habitus Forecast scenario engine.

This file gives a shallow embedding of the two core components of the
repository — the Excel category classifier/extractor
(`app/services/excel_processor.py`) and the financial scenario generator
(`app/services/scenario_generator.py`) — and proves or refutes the frozen
claims about them.

Modelling conventions:
* pandas DataFrames become `Frame`: an explicit row count plus an ordered
  list of named columns, each either numeric (`Col.num`, rational values),
  textual (`Col.text`) or datetime (`Col.date`).  Machine floats are
  idealised as `ℚ`; every identity claimed by the spec is "to floating
  point tolerance", which the exact rational model captures.  Frames are
  modelled without missing values, so `dropna(how='all')` is the identity
  and is omitted.
* Python dicts become association lists (`Dataset`); `d[k] = v` keeps the
  position of an existing key and appends a fresh key, exactly like the
  insertion-ordered dicts of Python 3.7+.
* `list(set(...))` lists a hash set in an unspecified order.  The order is
  deterministic inside one interpreter process (fixed hash seed) but is
  otherwise arbitrary, so the generator is parametrised by an ordering
  oracle `σ : List String → List String` (for the per-group column lists
  built in `_sum_category_values`) and `τ : List (List String) → List String`
  (for `list(set.intersection(*sets))` in `_find_common_numeric_columns`).
  `SetOrdAdm`/`InterOrdAdm` state exactly the set contract: the output is
  duplicate-free and has the membership of the input (resp. of the
  intersection).  Any CPython execution realises some admissible pair.
* numpy broadcasting of 1-d arrays is modelled by `npSub`: equal lengths
  subtract pointwise, a length-1 operand broadcasts, and any other
  mismatch raises (modelled as `none`).
-/

deriving instance DecidableEq for Except

namespace Habitus

/-- A single DataFrame column: numeric (float) values, object/text values,
or a datetime column (only its length matters to the engine). -/
inductive Col where
  | num (vals : List ℚ)
  | text (vals : List String)
  | date (n : ℕ)
deriving DecidableEq, Repr

/-- `select_dtypes(include=['number'])` membership for a column. -/
def Col.isNum : Col → Bool
  | .num _ => true
  | _ => false

/-- Numeric values of a column (`[]` for non-numeric columns). -/
def Col.numVals : Col → List ℚ
  | .num v => v
  | _ => []

/-- A pandas DataFrame: a row count (the index length) and named columns in
order.  `nrows` is kept explicitly because a frame can have rows but no
columns (`pd.DataFrame(index=...)`). -/
structure Frame where
  nrows : ℕ
  cols : List (String × Col)
deriving DecidableEq, Repr

/-- `df.columns` as a list of labels. -/
def Frame.colNames (f : Frame) : List String := f.cols.map Prod.fst

/-- `df.select_dtypes(include=['number']).columns` — numeric labels in
column order. -/
def Frame.numericCols (f : Frame) : List String :=
  (f.cols.filter (fun e => e.2.isNum)).map Prod.fst

/-- `df.empty` — true when either axis has length zero. -/
def Frame.isEmptyF (f : Frame) : Bool := f.nrows == 0 || f.cols.isEmpty

/-- Values of the first column labelled `c` when it is numeric, else `[]`.
(The source would raise on summing a same-named object column into a float
accumulator; datasets with a label that is numeric in one table and
textual in another are outside every property proved below.) -/
def colValsList : List (String × Col) → String → List ℚ
  | [], _ => []
  | e :: rest, c => if e.1 = c then e.2.numVals else colValsList rest c

/-- Values of the first column labelled `c` (see `colValsList`). -/
def Frame.colVals (f : Frame) (c : String) : List ℚ := colValsList f.cols c

/-- `df[c].sum()` for a numeric column. -/
def Frame.colSum (f : Frame) (c : String) : ℚ := (f.colVals c).sum

/-- `df[numeric_cols].sum().sum()` — the grand sum of all numeric cells. -/
def Frame.grandSum (f : Frame) : ℚ :=
  (f.cols.map (fun e => e.2.numVals.sum)).sum

/-- Replace the first column labelled `c` (or append a new one). This is
`df[c] = ...`: position preserved for an existing label, appended for a
new one. -/
def setColList : List (String × Col) → String → Col → List (String × Col)
  | [], c, v => [(c, v)]
  | e :: rest, c, v => if e.1 = c then (c, v) :: rest else e :: setColList rest c v

/-- `df[c] = column-of-values` with an explicit numeric value list. -/
def Frame.setNumCol (f : Frame) (c : String) (vals : List ℚ) : Frame :=
  ⟨f.nrows, setColList f.cols c (Col.num vals)⟩

/-! ## Datasets: `Dict[str, DataFrame]` -/

/-- An insertion-ordered mapping from category id to table. -/
abbrev Dataset := List (String × Frame)

/-- Dict lookup. -/
def dget : Dataset → String → Option Frame
  | [], _ => none
  | e :: rest, k => if e.1 = k then some e.2 else dget rest k

/-- Dict assignment `d[k] = f`: replaces in place or appends. -/
def dset : Dataset → String → Frame → Dataset
  | [], k, f => [(k, f)]
  | e :: rest, k, f => if e.1 = k then (k, f) :: rest else e :: dset rest k f

/-- `if k in d: d[k] = g(d[k])` — the per-category adjustment pattern of
the generator. -/
def dmodify (d : Dataset) (k : String) (g : Frame → Frame) : Dataset :=
  match dget d k with
  | some f => dset d k (g f)
  | none => d

/-! ## Category classifier / extractor (`excel_processor.py`) -/

/-- `FinancialCategory` of the source. -/
inductive FinancialCategory where
  | revenue
  | variableCosts
  | personnelExpenses
  | commercialExpenses
  | adminExpenses
  | investments
  | contributionMargin
  | cashFlow
  | finalBalance
deriving DecidableEq, Repr

/-- The stable string identifier of each category (`.value`). -/
def FinancialCategory.value : FinancialCategory → String
  | .revenue => "receitas"
  | .variableCosts => "custos_variaveis"
  | .personnelExpenses => "despesas_pessoal"
  | .commercialExpenses => "despesas_comerciais"
  | .adminExpenses => "despesas_administrativas"
  | .investments => "investimentos"
  | .contributionMargin => "margem_contribuicao"
  | .cashFlow => "fluxo_de_caixa"
  | .finalBalance => "saldo_final"

/-- ASCII lowering, modelling `str.lower()` (the fixed keyword lists are
already lower-case; accented upper-case input letters are the only
divergence and no property below depends on them). -/
def pyLower (s : String) : String := ⟨s.toList.map Char.toLower⟩

/-- Python's substring test `needle in hay`. -/
def containsSub (hay needle : String) : Bool :=
  hay.toList.tails.any (fun t => needle.toList.isPrefixOf t)

/-- `CATEGORY_KEYWORDS`, in the dict enumeration order of the source. -/
def CATEGORY_KEYWORDS : List (FinancialCategory × List String) :=
  [ (.revenue, ["receita", "faturamento", "vendas", "entrada"]),
    (.variableCosts, ["custo variável", "custo operacional", "matéria prima"]),
    (.personnelExpenses, ["despesa pessoal", "salário", "remuneração", "benefício"]),
    (.commercialExpenses, ["despesa comercial", "marketing", "vendas", "comissão"]),
    (.adminExpenses, ["despesa administrativa", "escritório", "aluguel", "utilidade"]),
    (.investments, ["investimento", "aquisição", "ativo", "imobilizado"]) ]

/-- One keyword pass: the first category (in enumeration order) one of
whose keywords occurs in `t`. -/
def firstKeywordMatch (t : String) : Option FinancialCategory :=
  CATEGORY_KEYWORDS.findSome?
    (fun e => if e.2.any (fun kw => containsSub t kw) then some e.1 else none)

/-- The accumulated text of the object-typed columns: each column's values
joined by spaces, columns concatenated with no separator, the whole thing
lowered (the source lowers cumulatively inside the loop, which nets out to
lowering the final concatenation). -/
def Col.textJoin : Col → Option String
  | .text vs => some (String.intercalate " " vs)
  | _ => none

/-- Lower-cased concatenated text content of all text columns. -/
def sheetTextContent (f : Frame) : String :=
  pyLower (String.join (f.cols.filterMap (fun e => e.2.textJoin)))

/-- Lower-cased space-joined column headers. -/
def sheetHeaderText (f : Frame) : String :=
  pyLower (String.intercalate " " f.colNames)

/-- `_identify_sheet_category`: sheet name, then cell text, then headers;
`none` when no pass matches. -/
def identifySheetCategory (sheetName : String) (f : Frame) : Option FinancialCategory :=
  match firstKeywordMatch (pyLower sheetName) with
  | some c => some c
  | none =>
    match firstKeywordMatch (sheetTextContent f) with
    | some c => some c
    | none => firstKeywordMatch (sheetHeaderText f)

/-- Header markers that trigger datetime coercion. -/
def isDateColName (c : String) : Bool :=
  containsSub (pyLower c) "data" || containsSub (pyLower c) "período" ||
    containsSub (pyLower c) "mes" || containsSub (pyLower c) "mês"

/-- `pd.to_datetime(col, errors='coerce')` always yields a datetime
column. -/
def Col.toDate : Col → Col
  | .num v => .date v.length
  | .text v => .date v.length
  | .date n => .date n

/-- `_process_dataframe_by_category`: coerce date-named columns; dropping
all-empty rows and the float cast are identities in this model. -/
def processFrame (f : Frame) : Frame :=
  ⟨f.nrows, f.cols.map (fun e => if isDateColName e.1 then (e.1, e.2.toDate) else e)⟩

/-- One step of `_extract_financial_data`: empty sheets are skipped,
classified sheets are processed and stored under their category id
(overwriting an earlier sheet of the same category), unclassified sheets
are dropped. -/
def extractStep (acc : Dataset) (s : String × Frame) : Dataset :=
  if s.2.isEmptyF then acc
  else
    match identifySheetCategory s.1 s.2 with
    | some c => dset acc c.value (processFrame s.2)
    | none => acc

/-- `_extract_financial_data` over the sheets in workbook order. -/
def extractFinancialData (sheets : List (String × Frame)) : Dataset :=
  sheets.foldl extractStep []

/-- At least one sheet has rows and columns (`not df.empty`). -/
def hasTabularData (sheets : List (String × Frame)) : Bool :=
  sheets.any (fun s => !s.2.isEmptyF)

/-- The successful result of `process_excel_data` (the fields irrelevant
to the claims — display names, metadata timestamps — are omitted). -/
structure ProcOutput where
  data : Dataset
deriving DecidableEq, Repr

/-- `process_excel_data` after the workbook has been parsed into sheets:
structural validation, extraction, then validation of the extracted data.
Every failure is an `ExcelValidationError`, modelled as `Except.error`
with the source's message. -/
def processExcelData (sheets : List (String × Frame)) : Except String ProcOutput :=
  if sheets.isEmpty then .error "O arquivo Excel não contém planilhas."
  else if !hasTabularData sheets then
    .error "O arquivo Excel não contém dados válidos em nenhuma planilha."
  else
    let data := extractFinancialData sheets
    if data.isEmpty then
      .error "Não foi possível extrair dados financeiros. Verifique se o arquivo contém categorias reconhecíveis."
    else
      match data.find? (fun e => e.2.numericCols.isEmpty) with
      | some e => .error ("A categoria '" ++ e.1 ++ "' não contém colunas numéricas para análise.")
      | none => .ok ⟨data⟩

/-! ## Scenario generator (`scenario_generator.py`) -/

/-- An ordering oracle for `list(set(...))`: the set is built by inserting
the elements of the argument list in order, and the oracle returns its
iteration order. -/
abbrev SetOrd := List String → List String

/-- An ordering oracle for `list(set.intersection(*sets))`, given the
element lists the operand sets were built from. -/
abbrev InterOrd := List (List String) → List String

/-- The contract a real `list(set(...))` satisfies: duplicate-free output
with exactly the membership of the insertions. -/
def SetOrdAdm (σ : SetOrd) : Prop :=
  ∀ xs, (σ xs).Nodup ∧ ∀ a, a ∈ σ xs ↔ a ∈ xs

/-- The contract of `list(set.intersection(*sets))`: duplicate-free, and an
element is listed iff the operand list is non-empty and the element is in
every operand. -/
def InterOrdAdm (τ : InterOrd) : Prop :=
  ∀ xss, (τ xss).Nodup ∧ ∀ a, a ∈ τ xss ↔ (xss ≠ [] ∧ ∀ xs ∈ xss, a ∈ xs)

/-- Elementwise subtraction of 1-d numpy arrays, with broadcasting: equal
lengths subtract pointwise, a length-1 operand broadcasts over the other,
anything else raises `ValueError` (`none`). -/
def npSub (xs ys : List ℚ) : Option (List ℚ) :=
  if xs.length = ys.length then some (xs.zipWith (· - ·) ys)
  else if ys.length = 1 then some (xs.map (· - ys.headI))
  else if xs.length = 1 then some (ys.map (fun y => xs.headI - y))
  else none

/-- `np.cumsum` with a running accumulator. -/
def cumsumFrom (acc : ℚ) : List ℚ → List ℚ
  | [] => []
  | x :: rest => (acc + x) :: cumsumFrom (acc + x) rest

/-- `np.cumsum`. -/
def npCumsum (xs : List ℚ) : List ℚ := cumsumFrom 0 xs

/-- The category-id groups of the generator. -/
def REVENUE_CATEGORIES : List String := ["receitas"]

/-- Variable-cost group. -/
def VARIABLE_COST_CATEGORIES : List String := ["custos_variaveis"]

/-- Fixed-expense group: personnel, commercial, admin. -/
def FIXED_EXPENSE_CATEGORIES : List String :=
  ["despesas_pessoal", "despesas_comerciais", "despesas_administrativas"]

/-- Investment group. -/
def INVESTMENT_CATEGORIES : List String := ["investimentos"]

/-- The insertion history of `numeric_columns` in `_sum_category_values`:
each present category's numeric columns, in group order. -/
def sumHist (d : Dataset) (cats : List String) : List String :=
  cats.flatMap (fun k =>
    match dget d k with
    | some f => f.numericCols
    | none => [])

/-- `result[i] += df[col].sum()` accumulated over the group for one
column label. -/
def sumColsAt (d : Dataset) (cats : List String) (c : String) : ℚ :=
  (cats.map (fun k =>
    match dget d k with
    | some f => if c ∈ f.colNames then f.colSum c else 0
    | none => 0)).sum

/-- `_sum_category_values`: the `list(set(...))` of the group's numeric
columns (order given by the oracle) and the per-column sums in that
order. -/
def sumCategoryValues (σ : SetOrd) (d : Dataset) (cats : List String) :
    List String × List ℚ :=
  let cols := σ (sumHist d cats)
  (cols, cols.map (sumColsAt d cats))

/-- `_find_common_numeric_columns`: numeric columns per non-empty table,
intersected; the list order is the oracle's. -/
def findCommonNumericColumns (τ : InterOrd) (d : Dataset) : List String :=
  let entries := d.filter (fun e => !e.2.isEmptyF)
  if entries.isEmpty then [] else τ (entries.map (fun e => e.2.numericCols))

/-- `_create_or_get_dataframe`: reuse an existing table, else build one
with the index and the non-numeric columns of the first non-empty table
(an empty frame when there is none). -/
def createOrGetDataframe (d : Dataset) (k : String) : Frame :=
  match dget d k with
  | some f => f
  | none =>
    match d.find? (fun e => !e.2.isEmptyF) with
    | some e => ⟨e.2.nrows, e.2.cols.filter (fun col => !col.2.isNum)⟩
    | none => ⟨0, []⟩

/-- `df[col] = v` for a scalar derived value: with more than one row the
scalar is divided evenly over the rows, otherwise assigned directly
(broadcast over the, possibly empty, index). -/
def setScalarCol (f : Frame) (c : String) (v : ℚ) : Frame :=
  if 1 < f.nrows then f.setNumCol c (List.replicate f.nrows (v / f.nrows))
  else f.setNumCol c (List.replicate f.nrows v)

/-- `np.pad`-or-truncate of the derived values to the column count. -/
def padTrim (vals : List ℚ) (n : ℕ) : List ℚ :=
  vals.take n ++ List.replicate (n - vals.length) 0

/-- `_update_dataframe_with_values`. -/
def updateDataframeWithValues (f : Frame) (columns : List String) (vals : List ℚ) :
    Frame :=
  if columns.isEmpty || vals.isEmpty then f
  else
    ((columns.zip (padTrim vals columns.length)).foldl
      (fun acc e => setScalarCol acc e.1 e.2) f)

/-- `_recalculate_derived_values`: common columns, the three per-column
sum arrays, margin/cash-flow by (broadcast) subtraction, balance by
cumulative sum, written into the three derived tables.  `none` models the
`ValueError` numpy raises on an illegal shape combination. -/
def recalculateDerivedValues (σ : SetOrd) (τ : InterOrd) (d : Dataset) :
    Option Dataset :=
  let common := findCommonNumericColumns τ d
  let marginDf := createOrGetDataframe d "margem_contribuicao"
  let cashflowDf := createOrGetDataframe d "fluxo_de_caixa"
  let balanceDf := createOrGetDataframe d "saldo_final"
  let revenueSum := (sumCategoryValues σ d REVENUE_CATEGORIES).2
  let variableCostsSum := (sumCategoryValues σ d VARIABLE_COST_CATEGORIES).2
  let fixedExpensesSum := (sumCategoryValues σ d FIXED_EXPENSE_CATEGORIES).2
  match npSub revenueSum variableCostsSum with
  | none => none
  | some contributionMargin =>
    match npSub contributionMargin fixedExpensesSum with
    | none => none
    | some cashflow =>
      let balance := npCumsum cashflow
      let m := updateDataframeWithValues marginDf common contributionMargin
      let cf := updateDataframeWithValues cashflowDf common cashflow
      let b := updateDataframeWithValues balanceDf common balance
      some (dset (dset (dset d "margem_contribuicao" m) "fluxo_de_caixa" cf)
        "saldo_final" b)

/-- The optional per-scenario parameter record. -/
structure Params where
  revenue_adjustment : Option ℚ := none
  cost_adjustment : Option ℚ := none
  expense_adjustment : Option ℚ := none
  initial_growth : Option ℚ := none
  growth_rate : Option ℚ := none
  investment_adjustment : Option ℚ := none
deriving DecidableEq, Repr

/-- `parameters.get(key, dflt) if parameters else dflt`. -/
def getParam (p : Option Params) (sel : Params → Option ℚ) (dflt : ℚ) : ℚ :=
  match p with
  | none => dflt
  | some ps => (sel ps).getD dflt

/-- `df[numeric_cols] = df[numeric_cols] * k`. -/
def scaleFrameNumeric (k : ℚ) (f : Frame) : Frame :=
  ⟨f.nrows, f.cols.map (fun e =>
    match e.2 with
    | .num v => (e.1, Col.num (v.map (· * k)))
    | _ => e)⟩

/-- `_generate_realistic_scenario`: a deep copy plus recalculation. -/
def generateRealisticScenario (σ : SetOrd) (τ : InterOrd) (d : Dataset) :
    Option Dataset :=
  recalculateDerivedValues σ τ d

/-- `_generate_pessimistic_scenario`. -/
def generatePessimisticScenario (σ : SetOrd) (τ : InterOrd) (d : Dataset)
    (p : Option Params) : Option Dataset :=
  let revenueAdjustment := getParam p Params.revenue_adjustment (-(15/100))
  let costAdjustment := getParam p Params.cost_adjustment (10/100)
  let expenseAdjustment := getParam p Params.expense_adjustment (10/100)
  let d1 := REVENUE_CATEGORIES.foldl
    (fun acc k => dmodify acc k (scaleFrameNumeric (1 + revenueAdjustment))) d
  let d2 := VARIABLE_COST_CATEGORIES.foldl
    (fun acc k => dmodify acc k (scaleFrameNumeric (1 + costAdjustment))) d1
  let d3 := FIXED_EXPENSE_CATEGORIES.foldl
    (fun acc k => dmodify acc k (scaleFrameNumeric (1 + expenseAdjustment))) d2
  recalculateDerivedValues σ τ d3

/-- `_generate_optimistic_scenario`. -/
def generateOptimisticScenario (σ : SetOrd) (τ : InterOrd) (d : Dataset)
    (p : Option Params) : Option Dataset :=
  let revenueAdjustment := getParam p Params.revenue_adjustment (20/100)
  let costAdjustment := getParam p Params.cost_adjustment (-(5/100))
  let expenseAdjustment := getParam p Params.expense_adjustment (-(5/100))
  let d1 := REVENUE_CATEGORIES.foldl
    (fun acc k => dmodify acc k (scaleFrameNumeric (1 + revenueAdjustment))) d
  let d2 := VARIABLE_COST_CATEGORIES.foldl
    (fun acc k => dmodify acc k (scaleFrameNumeric (1 + costAdjustment))) d1
  let d3 := FIXED_EXPENSE_CATEGORIES.foldl
    (fun acc k => dmodify acc k (scaleFrameNumeric (1 + expenseAdjustment))) d2
  recalculateDerivedValues σ τ d3

/-- `df[col] = df[col] * growth_factor` for one label (read from the
current frame, as the source does). -/
def mulColBy (f : Frame) (c : String) (k : ℚ) : Frame :=
  f.setNumCol c ((f.colVals c).map (· * k))

/-- The aggressive per-period revenue scaling: column `i` of the numeric
columns (in column order) is multiplied by `1 + initial_growth +
i*growth_rate`. -/
def scaleRevenueAggressive (ig gr : ℚ) (f : Frame) : Frame :=
  f.numericCols.enum.foldl (fun acc e => mulColBy acc e.2 (1 + ig + (e.1 : ℚ) * gr)) f

/-- `df[col] = df_orig[col] * (1 + (revenue_growth[i] - 1) * share)` for
each numeric column index `i` that has a growth entry; columns beyond the
growth array are left untouched. -/
def applyGrowthFrom (share : ℚ) (growth : List ℚ) (orig f : Frame) : Frame :=
  f.numericCols.enum.foldl
    (fun acc e =>
      match growth.get? e.1 with
      | some g => acc.setNumCol e.2 ((orig.colVals e.2).map (· * (1 + (g - 1) * share)))
      | none => acc) f

/-- `_generate_aggressive_scenario`.  `orig` is `self.financial_data`,
the pre-scenario dataset the cost/expense scaling reads from. -/
def generateAggressiveScenario (σ : SetOrd) (τ : InterOrd) (orig : Dataset)
    (p : Option Params) : Option Dataset :=
  let initialGrowth := getParam p Params.initial_growth (30/100)
  let growthRate := getParam p Params.growth_rate (5/100)
  let investmentAdjustment := getParam p Params.investment_adjustment (25/100)
  let d1 := REVENUE_CATEGORIES.foldl
    (fun acc k => dmodify acc k (scaleRevenueAggressive initialGrowth growthRate)) orig
  let d2 := INVESTMENT_CATEGORIES.foldl
    (fun acc k => dmodify acc k (scaleFrameNumeric (1 + investmentAdjustment))) d1
  let originalRevenue := (sumCategoryValues σ orig REVENUE_CATEGORIES).2
  let newRevenue := (sumCategoryValues σ d2 REVENUE_CATEGORIES).2
  let d4 :=
    if originalRevenue.length ≠ 0 ∧ newRevenue.length ≠ 0 then
      let revenueGrowth := newRevenue.zipWith
        (fun n o => if o = 0 then 1 else n / o) originalRevenue
      let d3 := VARIABLE_COST_CATEGORIES.foldl
        (fun acc k =>
          match dget orig k with
          | some origF => dmodify acc k (applyGrowthFrom (80/100) revenueGrowth origF)
          | none => acc) d2
      FIXED_EXPENSE_CATEGORIES.foldl
        (fun acc k =>
          match dget orig k with
          | some origF => dmodify acc k (applyGrowthFrom (50/100) revenueGrowth origF)
          | none => acc) d3
    else d2
  recalculateDerivedValues σ τ d4

/-! ## Metrics -/

/-- The scalar summary record of `_calculate_scenario_metrics`. -/
structure Metrics where
  total_revenue : ℚ
  total_costs : ℚ
  total_expenses : ℚ
  total_margin : ℚ
  total_cashflow : ℚ
  final_balance : ℚ
  margin_percentage : ℚ
  roi : ℚ
deriving DecidableEq, Repr

/-- Grand sum over a category group. -/
def groupGrandSum (d : Dataset) (cats : List String) : ℚ :=
  (cats.map (fun k =>
    match dget d k with
    | some f => f.grandSum
    | none => 0)).sum

/-- Grand sum of a single (derived) category, 0 when absent. -/
def catGrandSum (d : Dataset) (k : String) : ℚ :=
  match dget d k with
  | some f => f.grandSum
  | none => 0

/-- `final_balance`: the sum over the balance table's numeric columns of
each column's last (non-null) value. -/
def finalBalanceMetric (d : Dataset) : ℚ :=
  match dget d "saldo_final" with
  | some f => ((f.cols.filter (fun e => e.2.isNum)).map
      (fun e => (e.2.numVals.getLast?).getD 0)).sum
  | none => 0

/-- `_calculate_scenario_metrics`. -/
def calculateScenarioMetrics (d : Dataset) : Metrics :=
  let totalRevenue := groupGrandSum d REVENUE_CATEGORIES
  let totalCosts := groupGrandSum d VARIABLE_COST_CATEGORIES
  let totalExpenses := groupGrandSum d FIXED_EXPENSE_CATEGORIES
  let totalMargin := catGrandSum d "margem_contribuicao"
  let totalCashflow := catGrandSum d "fluxo_de_caixa"
  let totalInvestment := groupGrandSum d INVESTMENT_CATEGORIES
  { total_revenue := totalRevenue
    total_costs := totalCosts
    total_expenses := totalExpenses
    total_margin := totalMargin
    total_cashflow := totalCashflow
    final_balance := finalBalanceMetric d
    margin_percentage :=
      if 0 < totalRevenue then totalMargin / totalRevenue * 100 else 0
    roi := if 0 < totalInvestment then totalCashflow / totalInvestment * 100 else 0 }

/-! ## `generate_scenario` -/

/-- The failure modes of a `generate_scenario` call: the explicit
`ValueError` for an unknown scenario type, or the `ValueError` numpy
raises on a shape mismatch inside the recalculation. -/
inductive GenErr where
  | unknownScenario (msg : String)
  | numpyShapeError
deriving DecidableEq, Repr

/-- The successful response (`status`/`message` carry no information
beyond the scenario type and are omitted). -/
structure GenResponse where
  scenario_type : String
  data : Dataset
  metrics : Metrics
deriving DecidableEq, Repr

/-- `generate_scenario` on an already-normalised dataset. -/
def generateScenario (σ : SetOrd) (τ : InterOrd) (d : Dataset) (st : String)
    (p : Option Params) : Except GenErr GenResponse :=
  let branch : Except GenErr Dataset :=
    if st = "realista" then
      match generateRealisticScenario σ τ d with
      | some sd => .ok sd
      | none => .error .numpyShapeError
    else if st = "pessimista" then
      match generatePessimisticScenario σ τ d p with
      | some sd => .ok sd
      | none => .error .numpyShapeError
    else if st = "otimista" then
      match generateOptimisticScenario σ τ d p with
      | some sd => .ok sd
      | none => .error .numpyShapeError
    else if st = "agressivo" then
      match generateAggressiveScenario σ τ d p with
      | some sd => .ok sd
      | none => .error .numpyShapeError
    else .error (.unknownScenario ("Tipo de cenário desconhecido: " ++ st))
  match branch with
  | .error e => .error e
  | .ok sd => .ok ⟨st, sd, calculateScenarioMetrics sd⟩

/-- `generate_scenario` together with the `self.scenarios` store: the
scenario data is stored under its type only after the branch succeeds; on
any failure the store is untouched. -/
def generateScenarioWithStore (σ : SetOrd) (τ : InterOrd)
    (store : List (String × Dataset)) (d : Dataset) (st : String)
    (p : Option Params) : List (String × Dataset) × Except GenErr GenResponse :=
  match generateScenario σ τ d st p with
  | .error e => (store, .error e)
  | .ok r =>
    (match store.find? (fun e => decide (e.1 = st)) with
     | some _ => store.map (fun e => if e.1 = st then (st, r.data) else e)
     | none => store ++ [(st, r.data)], .ok r)

/-! ## Concrete admissible set orderings

Real `list(set(...))` orders depend on the interpreter's hash seed; any
duplicate-free listing of the right membership is realisable behaviour.
Two concrete admissible oracles are used below: a canonical sorted order
(by character codes) and its reverse.  Both are extensional (they depend
only on the membership), mirroring the per-process consistency of CPython
set iteration. -/

/-- The character-code key of a string. -/
def strKey (s : String) : List ℕ := s.toList.map Char.toNat

/-- Lexicographic comparison of code lists. -/
def keyLE : List ℕ → List ℕ → Bool
  | [], _ => true
  | _ :: _, [] => false
  | a :: as, b :: bs => if a < b then true else if b < a then false else keyLE as bs

/-- A computable total order on strings. -/
def strLE (a b : String) : Prop := keyLE (strKey a) (strKey b) = true

instance : DecidableRel strLE := fun a b => by unfold strLE; infer_instance

theorem keyLE_total (k1 k2 : List ℕ) : keyLE k1 k2 = true ∨ keyLE k2 k1 = true := by
  induction k1 generalizing k2 with
  | nil => left; rfl
  | cons a as ih =>
    cases k2 with
    | nil => right; rfl
    | cons b bs =>
      simp only [keyLE]
      rcases lt_trichotomy a b with h | h | h
      · left; simp [h]
      · subst h; simpa [lt_irrefl] using ih bs
      · right; simp [h, not_lt.mpr h.le, lt_irrefl]

theorem keyLE_trans {k1 k2 k3 : List ℕ} (h12 : keyLE k1 k2 = true)
    (h23 : keyLE k2 k3 = true) : keyLE k1 k3 = true := by
  induction k1 generalizing k2 k3 with
  | nil => rfl
  | cons a as ih =>
    cases k2 with
    | nil => simp [keyLE] at h12
    | cons b bs =>
      cases k3 with
      | nil => simp [keyLE] at h23
      | cons c cs =>
        simp only [keyLE] at h12 h23 ⊢
        rcases lt_trichotomy a b with hab | hab | hab
        · rcases lt_trichotomy b c with hbc | hbc | hbc
          · simp [lt_trans hab hbc]
          · subst hbc; simp [hab]
          · simp [hbc, not_lt.mpr hbc.le, lt_irrefl] at h23
        · subst hab
          rcases lt_trichotomy a c with hac | hac | hac
          · simp [hac]
          · subst hac
            simp only [lt_irrefl, if_false] at h12 h23 ⊢
            exact ih h12 h23
          · simp [hac, not_lt.mpr hac.le, lt_irrefl] at h23
        · simp [hab, not_lt.mpr hab.le, lt_irrefl] at h12

theorem keyLE_antisymm {k1 k2 : List ℕ} (h12 : keyLE k1 k2 = true)
    (h21 : keyLE k2 k1 = true) : k1 = k2 := by
  induction k1 generalizing k2 with
  | nil =>
    cases k2 with
    | nil => rfl
    | cons b bs => simp [keyLE] at h21
  | cons a as ih =>
    cases k2 with
    | nil => simp [keyLE] at h12
    | cons b bs =>
      simp only [keyLE] at h12 h21
      rcases lt_trichotomy a b with hab | hab | hab
      · simp [hab, not_lt.mpr hab.le, lt_irrefl] at h21
      · subst hab
        simp only [lt_irrefl, if_false] at h12 h21
        exact congrArg (a :: ·) (ih h12 h21)
      · simp [hab, not_lt.mpr hab.le, lt_irrefl] at h12

theorem charToNat_inj {c d : Char} (h : c.toNat = d.toNat) : c = d :=
  Char.ext (UInt32.ext h)

theorem strKey_inj {a b : String} (h : strKey a = strKey b) : a = b := by
  cases a with
  | mk da =>
    cases b with
    | mk db =>
      simp only [strKey, String.toList] at h
      have : da = db := by
        have hinj : Function.Injective Char.toNat := fun _ _ hc => charToNat_inj hc
        exact List.map_injective_iff.mpr hinj h
      simp [this]

instance : IsTotal String strLE := ⟨fun a b => keyLE_total (strKey a) (strKey b)⟩

instance : IsTrans String strLE := ⟨fun _ _ _ h1 h2 => keyLE_trans h1 h2⟩

instance : IsAntisymm String strLE :=
  ⟨fun _ _ h1 h2 => strKey_inj (keyLE_antisymm h1 h2)⟩

/-- Canonical admissible set listing: deduplicate, then sort. -/
def sigmaSort : SetOrd := fun xs => List.insertionSort strLE xs.dedup

/-- Intersection listing matching `sigmaSort`. -/
def tauSort : InterOrd
  | [] => []
  | xs :: rest => sigmaSort (xs.filter (fun a => rest.all (fun ys => ys.contains a)))

/-- The reversed variant of `sigmaSort`: an equally admissible hash
order. -/
def sigmaRev : SetOrd := fun xs => (sigmaSort xs).reverse

/-- The reversed variant of `tauSort`. -/
def tauRev : InterOrd := fun xss => (tauSort xss).reverse

theorem sigmaSort_nodup (xs : List String) : (sigmaSort xs).Nodup :=
  ((List.perm_insertionSort strLE xs.dedup).nodup_iff).mpr (List.nodup_dedup xs)

theorem mem_sigmaSort {a : String} {xs : List String} :
    a ∈ sigmaSort xs ↔ a ∈ xs := by
  rw [sigmaSort, (List.perm_insertionSort strLE xs.dedup).mem_iff, List.mem_dedup]

theorem sigmaSortAdm : SetOrdAdm sigmaSort :=
  fun xs => ⟨sigmaSort_nodup xs, fun _ => mem_sigmaSort⟩

theorem sigmaRevAdm : SetOrdAdm sigmaRev := by
  intro xs
  refine ⟨List.nodup_reverse.mpr (sigmaSort_nodup xs), fun a => ?_⟩
  rw [sigmaRev, List.mem_reverse, mem_sigmaSort]

/-- `sigmaSort` depends only on membership. -/
theorem sigmaSort_ext {xs ys : List String} (h : ∀ a, a ∈ xs ↔ a ∈ ys) :
    sigmaSort xs = sigmaSort ys := by
  have hperm : xs.dedup.Perm ys.dedup := by
    rw [List.perm_ext_iff_of_nodup (List.nodup_dedup xs) (List.nodup_dedup ys)]
    intro a
    rw [List.mem_dedup, List.mem_dedup]
    exact h a
  refine List.eq_of_perm_of_sorted ?_ (List.sorted_insertionSort strLE _)
    (List.sorted_insertionSort strLE _)
  exact ((List.perm_insertionSort strLE xs.dedup).trans hperm).trans
    (List.perm_insertionSort strLE ys.dedup).symm

theorem mem_tauSort {a : String} {xss : List (List String)} :
    a ∈ tauSort xss ↔ (xss ≠ [] ∧ ∀ xs ∈ xss, a ∈ xs) := by
  cases xss with
  | nil => simp [tauSort]
  | cons xs rest =>
    simp only [tauSort, mem_sigmaSort, List.mem_filter, ne_eq, reduceCtorEq,
      not_false_iff, true_and, List.mem_cons]
    constructor
    · rintro ⟨hx, hall⟩ ys (rfl | hys)
      · exact hx
      · have := List.all_eq_true.mp hall ys hys
        simpa [List.elem_iff] using this
    · intro h
      refine ⟨h xs (Or.inl rfl), List.all_eq_true.mpr fun ys hys => ?_⟩
      simpa [List.elem_iff] using h ys (Or.inr hys)

theorem tauSortAdm : InterOrdAdm tauSort := by
  intro xss
  refine ⟨?_, fun a => mem_tauSort⟩
  cases xss with
  | nil => exact List.nodup_nil
  | cons xs rest => exact sigmaSort_nodup _

theorem tauRevAdm : InterOrdAdm tauRev := by
  intro xss
  refine ⟨List.nodup_reverse.mpr (tauSortAdm xss).1, fun a => ?_⟩
  rw [tauRev, List.mem_reverse]
  exact (tauSortAdm xss).2 a

/-- Whenever the intersection of the operand sets has exactly the
membership of `L`, `tauSort` lists it in the same order `sigmaSort` gives
`L` — the model of CPython's per-process consistency between the sum
orders and the common-column order. -/
theorem tauSort_compat {L : List String} {xss : List (List String)}
    (hne : xss ≠ []) (hmem : ∀ a, (∀ xs ∈ xss, a ∈ xs) ↔ a ∈ L) :
    tauSort xss = sigmaSort L := by
  cases xss with
  | nil => exact absurd rfl hne
  | cons xs rest =>
    refine sigmaSort_ext fun a => ?_
    rw [List.mem_filter]
    constructor
    · rintro ⟨hx, hall⟩
      refine (hmem a).mp fun ys hys => ?_
      rcases List.mem_cons.mp hys with rfl | hys
      · exact hx
      · simpa [List.elem_iff] using List.all_eq_true.mp hall ys hys
    · intro ha
      have h := (hmem a).mpr ha
      refine ⟨h xs (List.mem_cons_self xs rest), List.all_eq_true.mpr fun ys hys => ?_⟩
      simpa [List.elem_iff] using h ys (List.mem_cons_of_mem xs hys)

/-! ## Dictionary lemmas -/

theorem dget_dset_self (d : Dataset) (k : String) (f : Frame) :
    dget (dset d k f) k = some f := by
  induction d with
  | nil => simp [dget, dset]
  | cons e rest ih =>
    by_cases h : e.1 = k
    · simp [dget, dset, h]
    · simp [dget, dset, h, ih]

theorem dget_dset_ne (d : Dataset) {k' k : String} (f : Frame) (h : k' ≠ k) :
    dget (dset d k' f) k = dget d k := by
  induction d with
  | nil => simp [dget, dset, h]
  | cons e rest ih =>
    by_cases he : e.1 = k'
    · simp [dget, dset, he, h]
    · simp [dget, dset, he, ih]

theorem dget_dmodify_self (d : Dataset) (k : String) (g : Frame → Frame) :
    dget (dmodify d k g) k = (dget d k).map g := by
  unfold dmodify
  cases h : dget d k with
  | none => exact h
  | some f => simp [dget_dset_self]

theorem dget_dmodify_ne (d : Dataset) {k' k : String} (g : Frame → Frame)
    (h : k' ≠ k) : dget (dmodify d k' g) k = dget d k := by
  unfold dmodify
  cases hh : dget d k' with
  | none => rfl
  | some f => simp [dget_dset_ne _ _ h]

/-- The recalculation step only writes the three derived keys: every other
key of the dataset is untouched. -/
theorem dget_recalc_ne {σ : SetOrd} {τ : InterOrd} {d sd : Dataset}
    (h : recalculateDerivedValues σ τ d = some sd) {k : String}
    (h1 : k ≠ "margem_contribuicao") (h2 : k ≠ "fluxo_de_caixa")
    (h3 : k ≠ "saldo_final") : dget sd k = dget d k := by
  simp only [recalculateDerivedValues] at h
  split at h
  · exact absurd h (by simp)
  · split at h
    · exact absurd h (by simp)
    · cases Option.some.inj h
      rw [dget_dset_ne _ _ (Ne.symm h3), dget_dset_ne _ _ (Ne.symm h2),
        dget_dset_ne _ _ (Ne.symm h1)]

/-! ## C4 — realistic scenario leaves base categories unchanged -/

/-- C4: for every dataset, `generate(dataset, "realista")` leaves every
non-derived category exactly as in the input; only the three derived
categories are (re)computed.  (Proved for all datasets, which covers the
claim's "fully populated" ones.) -/
theorem claim_C4 (σ : SetOrd) (τ : InterOrd) (d : Dataset) (p : Option Params)
    (out : GenResponse) (h : generateScenario σ τ d "realista" p = .ok out)
    (k : String) (h1 : k ≠ "margem_contribuicao") (h2 : k ≠ "fluxo_de_caixa")
    (h3 : k ≠ "saldo_final") : dget out.data k = dget d k := by
  cases hrec : recalculateDerivedValues σ τ d with
  | none =>
    simp +decide only [generateScenario, generateRealisticScenario, hrec,
      if_true, if_false, ite_true, ite_false] at h
    exact absurd h (by simp)
  | some sd =>
    simp +decide only [generateScenario, generateRealisticScenario, hrec,
      if_true, if_false, ite_true, ite_false, Except.ok.injEq] at h
    subst h
    exact dget_recalc_ne hrec h1 h2 h3

/-- The spec's concrete example dataset: revenue `Jan` rows summing to
300000, variable costs summing to 90000, plus a (zero) personnel table so
the fixed-expense array has a compatible shape. -/
def dW : Dataset :=
  [("receitas", ⟨3, [("Descrição", Col.text ["Produto A", "Produto B", "Serviço X"]),
                     ("Jan", Col.num [100000, 150000, 50000])]⟩),
   ("custos_variaveis", ⟨3, [("Jan", Col.num [40000, 30000, 20000])]⟩),
   ("despesas_pessoal", ⟨1, [("Jan", Col.num [0])]⟩)]

/-- The realistic scenario output on `dW`. -/
def dWrealOut : Dataset := dW ++
  [("margem_contribuicao", ⟨3, [("Descrição", Col.text ["Produto A", "Produto B", "Serviço X"]),
                                ("Jan", Col.num [70000, 70000, 70000])]⟩),
   ("fluxo_de_caixa", ⟨3, [("Descrição", Col.text ["Produto A", "Produto B", "Serviço X"]),
                           ("Jan", Col.num [70000, 70000, 70000])]⟩),
   ("saldo_final", ⟨3, [("Descrição", Col.text ["Produto A", "Produto B", "Serviço X"]),
                        ("Jan", Col.num [70000, 70000, 70000])]⟩)]

set_option maxRecDepth 8000 in
theorem recalc_dW : recalculateDerivedValues sigmaSort tauSort dW = some dWrealOut := by
  simp +decide only [recalculateDerivedValues, findCommonNumericColumns,
    createOrGetDataframe, sumCategoryValues, sumHist, sumColsAt, Frame.numericCols,
    Frame.colNames, Frame.colSum, Frame.colVals, colValsList, Col.isNum, Col.numVals,
    Frame.isEmptyF, npSub, npCumsum, cumsumFrom, updateDataframeWithValues, padTrim,
    setScalarCol, Frame.setNumCol, setColList, sigmaSort, tauSort, List.insertionSort,
    List.orderedInsert, strLE, strKey, keyLE, List.dedup, dW, dWrealOut,
    REVENUE_CATEGORIES, VARIABLE_COST_CATEGORIES, FIXED_EXPENSE_CATEGORIES, dget, dset,
    List.filter, List.map, List.foldl, List.zip, List.zipWith, List.take,
    List.replicate, List.flatMap, List.isEmpty, List.any, List.all, List.elem,
    List.length, List.append, ite_true, ite_false]
  norm_num

set_option maxRecDepth 8000 in
theorem genReal_dW : generateScenario sigmaSort tauSort dW "realista" none =
    .ok ⟨"realista", dWrealOut, ⟨300000, 90000, 0, 210000, 210000, 70000, 70, 0⟩⟩ := by
  simp +decide only [generateScenario, generateRealisticScenario, recalc_dW,
    calculateScenarioMetrics, groupGrandSum, catGrandSum, finalBalanceMetric,
    Frame.grandSum, Col.isNum, Col.numVals, dget, dWrealOut, REVENUE_CATEGORIES,
    VARIABLE_COST_CATEGORIES, FIXED_EXPENSE_CATEGORIES, INVESTMENT_CATEGORIES,
    List.filter, List.map, List.append, List.getLast?, Option.getD]
  simp +decide only [dW, dget, List.append, List.map, List.filter, List.getLast?,
    Frame.grandSum, Col.isNum, Col.numVals, Option.getD, if_true, if_false,
    ite_true, ite_false, GenResponse.mk.injEq, Metrics.mk.injEq, Except.ok.injEq]
  norm_num

/-- C4 witness: on the spec's concrete dataset the realistic scenario keeps
the revenue table (a non-derived key) exactly as supplied. -/
theorem claim_C4_witness : dget dWrealOut "receitas" = dget dW "receitas" :=
  claim_C4 sigmaSort tauSort dW none
    ⟨"realista", dWrealOut, ⟨300000, 90000, 0, 210000, 210000, 70000, 70, 0⟩⟩
    genReal_dW "receitas" (by decide) (by decide) (by decide)

/-! ## C8 — unknown scenario type -/

theorem containsSub_self_append (a b : String) : containsSub (a ++ b) b = true := by
  unfold containsSub
  rw [List.any_eq_true]
  have hsuffix : b.toList <:+ (a ++ b).toList := by
    have h : (a ++ b).toList = a.toList ++ b.toList := by
      simp [String.toList, String.data_append]
    rw [h]
    exact List.suffix_append _ _
  exact ⟨b.toList, (List.mem_tails _ _).mpr hsuffix,
    List.isPrefixOf_iff_prefix.mpr (List.prefix_refl _)⟩

/-- C8: a scenario-type string other than the four known ones makes
`generate_scenario` fail at the dispatch with a `ValueError` whose message
names the offending value, and nothing is stored in `self.scenarios`. -/
theorem claim_C8 (σ : SetOrd) (τ : InterOrd) (store : List (String × Dataset))
    (d : Dataset) (st : String) (p : Option Params)
    (h1 : st ≠ "realista") (h2 : st ≠ "pessimista") (h3 : st ≠ "otimista")
    (h4 : st ≠ "agressivo") :
    generateScenarioWithStore σ τ store d st p =
      (store, .error (.unknownScenario ("Tipo de cenário desconhecido: " ++ st)))
    ∧ containsSub ("Tipo de cenário desconhecido: " ++ st) st = true := by
  constructor
  · simp only [generateScenarioWithStore, generateScenario, if_neg h1, if_neg h2,
      if_neg h3, if_neg h4]
  · exact containsSub_self_append _ _

/-- C8 witness at the concrete unknown type `"foo"`. -/
theorem claim_C8_witness :
    generateScenarioWithStore sigmaSort tauSort [] [] "foo" none =
      ([], .error (.unknownScenario "Tipo de cenário desconhecido: foo"))
    ∧ containsSub "Tipo de cenário desconhecido: foo" "foo" = true := by
  have h := claim_C8 sigmaSort tauSort [] [] "foo" none
    (by decide) (by decide) (by decide) (by decide)
  simpa using h

/-! ## C5 — pessimistic scenario with default parameters -/

theorem colVals_scaleFrameNumeric (k : ℚ) (f : Frame) (c : String) :
    (scaleFrameNumeric k f).colVals c = (f.colVals c).map (· * k) := by
  show colValsList _ c = _
  unfold scaleFrameNumeric
  simp only [Frame.colVals]
  induction f.cols with
  | nil => simp [colValsList]
  | cons e rest ih =>
    rcases e with ⟨n, col⟩
    cases col <;> by_cases h : n = c <;>
      simp [colValsList, h, Col.numVals, ih]

/-- C5: the pessimistic scenario with no parameters multiplies every
numeric revenue value by 0.85 and every numeric variable-cost and
fixed-expense value by 1.10, and leaves the investments category
untouched.  Stated both per table and per column value. -/
theorem claim_C5 (σ : SetOrd) (τ : InterOrd) (d : Dataset) (out : GenResponse)
    (h : generateScenario σ τ d "pessimista" none = .ok out) :
    dget out.data "receitas" = (dget d "receitas").map (scaleFrameNumeric (85/100))
    ∧ dget out.data "custos_variaveis" =
        (dget d "custos_variaveis").map (scaleFrameNumeric (110/100))
    ∧ dget out.data "despesas_pessoal" =
        (dget d "despesas_pessoal").map (scaleFrameNumeric (110/100))
    ∧ dget out.data "despesas_comerciais" =
        (dget d "despesas_comerciais").map (scaleFrameNumeric (110/100))
    ∧ dget out.data "despesas_administrativas" =
        (dget d "despesas_administrativas").map (scaleFrameNumeric (110/100))
    ∧ dget out.data "investimentos" = dget d "investimentos"
    ∧ (∀ F G, dget d "receitas" = some F → dget out.data "receitas" = some G →
        ∀ c, G.colVals c = (F.colVals c).map (· * (85/100)))
    ∧ (∀ F G, dget d "custos_variaveis" = some F →
        dget out.data "custos_variaveis" = some G →
        ∀ c, G.colVals c = (F.colVals c).map (· * (110/100))) := by
  have e85 : (1 + -(15/100) : ℚ) = 85/100 := by norm_num
  have e110 : (1 + 10/100 : ℚ) = 110/100 := by norm_num
  have hd3 : generatePessimisticScenario σ τ d none =
      recalculateDerivedValues σ τ
        (dmodify (dmodify (dmodify (dmodify (dmodify d
          "receitas" (scaleFrameNumeric (85/100)))
          "custos_variaveis" (scaleFrameNumeric (110/100)))
          "despesas_pessoal" (scaleFrameNumeric (110/100)))
          "despesas_comerciais" (scaleFrameNumeric (110/100)))
          "despesas_administrativas" (scaleFrameNumeric (110/100))) := by
    simp only [generatePessimisticScenario, getParam, REVENUE_CATEGORIES,
      VARIABLE_COST_CATEGORIES, FIXED_EXPENSE_CATEGORIES, List.foldl, e85, e110]
  set D3 := dmodify (dmodify (dmodify (dmodify (dmodify d
      "receitas" (scaleFrameNumeric (85/100)))
      "custos_variaveis" (scaleFrameNumeric (110/100)))
      "despesas_pessoal" (scaleFrameNumeric (110/100)))
      "despesas_comerciais" (scaleFrameNumeric (110/100)))
      "despesas_administrativas" (scaleFrameNumeric (110/100)) with hD3
  cases hrec : recalculateDerivedValues σ τ D3 with
  | none =>
    rw [hD3] at hrec
    simp +decide only [generateScenario, hd3, hrec,
      if_true, if_false, ite_true, ite_false] at h
    exact absurd h (by simp)
  | some sd =>
    have hout : out.data = sd := by
      rw [hD3] at hrec
      simp +decide only [generateScenario, hd3, hrec,
        if_true, if_false, ite_true, ite_false, Except.ok.injEq] at h
      rw [← h]
    have hrev : dget out.data "receitas" =
        (dget d "receitas").map (scaleFrameNumeric (85/100)) := by
      rw [hout, dget_recalc_ne hrec (by decide) (by decide) (by decide), hD3]
      rw [dget_dmodify_ne _ _ (by decide), dget_dmodify_ne _ _ (by decide),
        dget_dmodify_ne _ _ (by decide), dget_dmodify_ne _ _ (by decide),
        dget_dmodify_self]
    have hvc : dget out.data "custos_variaveis" =
        (dget d "custos_variaveis").map (scaleFrameNumeric (110/100)) := by
      rw [hout, dget_recalc_ne hrec (by decide) (by decide) (by decide), hD3]
      rw [dget_dmodify_ne _ _ (by decide), dget_dmodify_ne _ _ (by decide),
        dget_dmodify_ne _ _ (by decide), dget_dmodify_self,
        dget_dmodify_ne _ _ (by decide)]
    refine ⟨hrev, hvc, ?_, ?_, ?_, ?_, ?_, ?_⟩
    · rw [hout, dget_recalc_ne hrec (by decide) (by decide) (by decide), hD3]
      rw [dget_dmodify_ne _ _ (by decide), dget_dmodify_ne _ _ (by decide),
        dget_dmodify_self, dget_dmodify_ne _ _ (by decide),
        dget_dmodify_ne _ _ (by decide)]
    · rw [hout, dget_recalc_ne hrec (by decide) (by decide) (by decide), hD3]
      rw [dget_dmodify_ne _ _ (by decide), dget_dmodify_self,
        dget_dmodify_ne _ _ (by decide), dget_dmodify_ne _ _ (by decide),
        dget_dmodify_ne _ _ (by decide)]
    · rw [hout, dget_recalc_ne hrec (by decide) (by decide) (by decide), hD3]
      rw [dget_dmodify_self, dget_dmodify_ne _ _ (by decide),
        dget_dmodify_ne _ _ (by decide), dget_dmodify_ne _ _ (by decide),
        dget_dmodify_ne _ _ (by decide)]
    · rw [hout, dget_recalc_ne hrec (by decide) (by decide) (by decide), hD3]
      rw [dget_dmodify_ne _ _ (by decide), dget_dmodify_ne _ _ (by decide),
        dget_dmodify_ne _ _ (by decide), dget_dmodify_ne _ _ (by decide),
        dget_dmodify_ne _ _ (by decide)]
    · intro F G hF hG c
      rw [hrev, hF] at hG
      cases Option.some.inj hG
      exact colVals_scaleFrameNumeric _ _ _
    · intro F G hF hG c
      rw [hvc, hF] at hG
      cases Option.some.inj hG
      exact colVals_scaleFrameNumeric _ _ _

/-- The pessimistic output data on the spec's concrete dataset `dW`. -/
def dWpessOut : Dataset :=
  [("receitas", ⟨3, [("Descrição", Col.text ["Produto A", "Produto B", "Serviço X"]),
                     ("Jan", Col.num [85000, 127500, 42500])]⟩),
   ("custos_variaveis", ⟨3, [("Jan", Col.num [44000, 33000, 22000])]⟩),
   ("despesas_pessoal", ⟨1, [("Jan", Col.num [0])]⟩)] ++
  [("margem_contribuicao", ⟨3, [("Descrição", Col.text ["Produto A", "Produto B", "Serviço X"]),
                                ("Jan", Col.num [52000, 52000, 52000])]⟩),
   ("fluxo_de_caixa", ⟨3, [("Descrição", Col.text ["Produto A", "Produto B", "Serviço X"]),
                           ("Jan", Col.num [52000, 52000, 52000])]⟩),
   ("saldo_final", ⟨3, [("Descrição", Col.text ["Produto A", "Produto B", "Serviço X"]),
                        ("Jan", Col.num [52000, 52000, 52000])]⟩)]

set_option maxRecDepth 8000 in
theorem genPess_dW : generateScenario sigmaSort tauSort dW "pessimista" none =
    .ok ⟨"pessimista", dWpessOut,
      ⟨255000, 99000, 0, 156000, 156000, 52000, 156000/255000*100, 0⟩⟩ := by
  have h3 : generatePessimisticScenario sigmaSort tauSort dW none = some dWpessOut := by
    simp +decide only [generatePessimisticScenario, getParam, REVENUE_CATEGORIES,
      VARIABLE_COST_CATEGORIES, FIXED_EXPENSE_CATEGORIES, List.foldl, dmodify, dget,
      dset, scaleFrameNumeric, dW, recalculateDerivedValues, findCommonNumericColumns,
      createOrGetDataframe, sumCategoryValues, sumHist, sumColsAt, Frame.numericCols,
      Frame.colNames, Frame.colSum, Frame.colVals, colValsList, Col.isNum, Col.numVals,
      Frame.isEmptyF, npSub, npCumsum, cumsumFrom, updateDataframeWithValues, padTrim,
      setScalarCol, Frame.setNumCol, setColList, sigmaSort, tauSort,
      List.insertionSort, List.orderedInsert, strLE, strKey, keyLE, List.dedup,
      dWpessOut, List.filter, List.map, List.zip, List.zipWith, List.take,
      List.replicate, List.flatMap, List.isEmpty, List.any, List.all, List.elem,
      List.length, List.append, ite_true, ite_false, if_true, if_false]
    norm_num
  simp +decide only [generateScenario, h3, if_true, if_false, ite_true, ite_false,
    calculateScenarioMetrics, groupGrandSum, catGrandSum, finalBalanceMetric,
    Frame.grandSum, Col.isNum, Col.numVals, dget, dWpessOut, REVENUE_CATEGORIES,
    VARIABLE_COST_CATEGORIES, FIXED_EXPENSE_CATEGORIES, INVESTMENT_CATEGORIES,
    List.filter, List.map, List.append, List.getLast?, Option.getD,
    GenResponse.mk.injEq, Metrics.mk.injEq, Except.ok.injEq]
  norm_num

/-- C5 witness: on the spec's concrete data the pessimistic scenario gives
revenue `Jan` summing to 255000 = 300000×0.85 and variable costs `Jan`
summing to 99000 = 90000×1.10, and there is no investments table to
change. -/
theorem claim_C5_witness :
    dget dWpessOut "receitas" = (dget dW "receitas").map (scaleFrameNumeric (85/100))
    ∧ dget dWpessOut "investimentos" = dget dW "investimentos"
    ∧ (match dget dWpessOut "receitas" with
        | some f => f.colSum "Jan"
        | none => 0) = 255000
    ∧ (match dget dWpessOut "custos_variaveis" with
        | some f => f.colSum "Jan"
        | none => 0) = 99000 := by
  have h := claim_C5 sigmaSort tauSort dW
    ⟨"pessimista", dWpessOut, ⟨255000, 99000, 0, 156000, 156000, 52000, 156000/255000*100, 0⟩⟩
    genPess_dW
  refine ⟨h.1, h.2.2.2.2.2.1, ?_, ?_⟩ <;>
    · simp +decide only [dWpessOut, dget, dW, Frame.colSum, Frame.colVals, colValsList,
        Col.numVals, List.append, ite_true, ite_false, if_true, if_false]
      norm_num

/-! ## C10 — duplicate categories: last sheet wins -/

/-- A sheet is stored under key `k`: it is non-empty and classifies to the
category whose id is `k`. -/
def classifiesTo (k : String) (s : String × Frame) : Bool :=
  !s.2.isEmptyF &&
    decide ((identifySheetCategory s.1 s.2).map FinancialCategory.value = some k)

theorem dget_extractStep_of_not (k : String) (acc : Dataset) (s : String × Frame)
    (h : classifiesTo k s = false) : dget (extractStep acc s) k = dget acc k := by
  unfold extractStep
  by_cases he : s.2.isEmptyF = true
  · simp [he]
  · simp only [classifiesTo, he, Bool.not_false, Bool.true_and,
      decide_eq_false_iff_not] at h
    simp only [he, if_false, Bool.false_eq_true]
    cases hid : identifySheetCategory s.1 s.2 with
    | none => rfl
    | some c =>
      have hne : c.value ≠ k := by
        intro hv
        exact h (by rw [hid]; simp [hv])
      exact dget_dset_ne _ _ hne

theorem dget_extractStep_of (k : String) (acc : Dataset) (s : String × Frame)
    (h : classifiesTo k s = true) :
    dget (extractStep acc s) k = some (processFrame s.2) := by
  rw [classifiesTo, Bool.and_eq_true] at h
  obtain ⟨h1, h2⟩ := h
  have he : s.2.isEmptyF = false := by
    cases hh : s.2.isEmptyF
    · rfl
    · rw [hh] at h1; exact absurd h1 (by decide)
  obtain ⟨c, hc, hv⟩ := Option.map_eq_some'.mp (of_decide_eq_true h2)
  unfold extractStep
  rw [he]
  simp only [Bool.false_eq_true, if_false, hc]
  rw [← hv]
  exact dget_dset_self _ _ _

theorem extract_foldl_last (k : String) (sheets : List (String × Frame)) :
    ∀ acc : Dataset,
      dget (sheets.foldl extractStep acc) k =
        match (sheets.filter (classifiesTo k)).getLast? with
        | some s => some (processFrame s.2)
        | none => dget acc k := by
  induction sheets with
  | nil => intro acc; rfl
  | cons s rest ih =>
    intro acc
    rw [List.foldl_cons, ih]
    by_cases hcl : classifiesTo k s = true
    · rw [List.filter_cons_of_pos hcl]
      cases hfl : rest.filter (classifiesTo k) with
      | nil =>
        simp only [List.getLast?_nil, List.getLast?_singleton]
        exact dget_extractStep_of k acc s hcl
      | cons x xs =>
        rw [List.getLast?_cons_cons]
        obtain ⟨y, hy⟩ := Option.isSome_iff_exists.mp
          (List.getLast?_isSome.mpr (List.cons_ne_nil x xs))
        rw [hy]
    · rw [List.filter_cons_of_neg (by simpa using hcl)]
      cases hfl : (rest.filter (classifiesTo k)).getLast? with
      | some s' => rfl
      | none =>
        exact dget_extractStep_of_not k acc s (by simpa using hcl)

theorem mem_keys_dset {d : Dataset} {k a : String} {f : Frame} :
    a ∈ (dset d k f).map Prod.fst ↔ a ∈ d.map Prod.fst ∨ a = k := by
  induction d with
  | nil => simp [dset]
  | cons e rest ih =>
    by_cases h : e.1 = k
    · subst h
      simp [dset]
      tauto
    · simp only [dset, h, if_false, List.map_cons, List.mem_cons, ih]
      tauto

theorem keys_nodup_dset {d : Dataset} (k : String) (f : Frame)
    (h : (d.map Prod.fst).Nodup) : ((dset d k f).map Prod.fst).Nodup := by
  induction d with
  | nil => simp [dset]
  | cons e rest ih =>
    rw [List.map_cons, List.nodup_cons] at h
    by_cases he : e.1 = k
    · subst he
      simpa [dset, List.nodup_cons] using h
    · rw [dset]
      simp only [he, if_false]
      rw [List.map_cons, List.nodup_cons]
      refine ⟨fun hmem => ?_, ih h.2⟩
      rcases mem_keys_dset.mp hmem with hm | hm
      · exact h.1 hm
      · exact he hm

theorem keys_nodup_extract_foldl (sheets : List (String × Frame)) :
    ∀ acc : Dataset, (acc.map Prod.fst).Nodup →
      ((sheets.foldl extractStep acc).map Prod.fst).Nodup := by
  induction sheets with
  | nil => intro acc h; exact h
  | cons s rest ih =>
    intro acc h
    rw [List.foldl_cons]
    refine ih _ ?_
    unfold extractStep
    by_cases he : s.2.isEmptyF = true
    · simpa [he] using h
    · simp only [he, Bool.false_eq_true, if_false]
      cases hid : identifySheetCategory s.1 s.2 with
      | none => exact h
      | some c => exact keys_nodup_dset _ _ h

/-- C10: when several sheets classify to one category, the extractor keeps
exactly one table for that category — the processed frame of the last such
sheet in workbook order; all earlier same-category sheets are silently
discarded. -/
theorem claim_C10 (sheets : List (String × Frame)) (k : String) :
    dget (extractFinancialData sheets) k =
      ((sheets.filter (classifiesTo k)).getLast?).map (fun s => processFrame s.2)
    ∧ ((extractFinancialData sheets).map Prod.fst).Nodup := by
  constructor
  · rw [extractFinancialData, extract_foldl_last k sheets []]
    cases hfl : (sheets.filter (classifiesTo k)).getLast? with
    | some s => rfl
    | none => rfl
  · exact keys_nodup_extract_foldl sheets [] (by simp)

/-! ## C6 — three-pass classification, unmatched sheets dropped -/

theorem findSome?_guard {α β : Type} (p : α → Bool) (g : α → β) (l : List α) :
    (l.findSome? (fun a => if p a then some (g a) else none)) = (l.find? p).map g := by
  induction l with
  | nil => rfl
  | cons a rest ih =>
    by_cases h : p a
    · simp [List.findSome?_cons, List.find?_cons, h]
    · simp [List.findSome?_cons, List.find?_cons, h, ih]

/-- C6: classification is three keyword passes in fixed priority order —
lower-cased sheet name, then concatenated lower-cased text content, then
lower-cased headers — each pass taking the first category (in keyword-table
order) with a substring match, and a sheet matching no pass is dropped: it
contributes nothing to the extracted dataset. -/
theorem claim_C6 (s : String) (f : Frame) :
    (∀ t : String, firstKeywordMatch t =
      (CATEGORY_KEYWORDS.find? (fun e => e.2.any (fun kw => containsSub t kw))).map
        Prod.fst)
    ∧ (∀ c : FinancialCategory, identifySheetCategory s f = some c ↔
        (firstKeywordMatch (pyLower s) = some c
         ∨ (firstKeywordMatch (pyLower s) = none
            ∧ firstKeywordMatch (sheetTextContent f) = some c)
         ∨ (firstKeywordMatch (pyLower s) = none
            ∧ firstKeywordMatch (sheetTextContent f) = none
            ∧ firstKeywordMatch (sheetHeaderText f) = some c)))
    ∧ (identifySheetCategory s f = none →
        ∀ pre post : List (String × Frame),
          extractFinancialData (pre ++ (s, f) :: post) =
            extractFinancialData (pre ++ post)) := by
  refine ⟨fun t => findSome?_guard _ _ _, fun c => ?_, fun hnone pre post => ?_⟩
  · unfold identifySheetCategory
    cases h1 : firstKeywordMatch (pyLower s) with
    | some c1 => simp [h1]
    | none =>
      cases h2 : firstKeywordMatch (sheetTextContent f) with
      | some c2 => simp [h2]
      | none => simp [h2]
  · unfold extractFinancialData
    rw [List.foldl_append, List.foldl_append, List.foldl_cons]
    have hstep : ∀ acc : Dataset, extractStep acc (s, f) = acc := by
      intro acc
      unfold extractStep
      by_cases he : Frame.isEmptyF f = true
      · simp [he]
      · simp [he, hnone]
    rw [hstep]

/-- A sheet no pass can classify. -/
def plainSheet : String × Frame := ("Sheet1", ⟨1, [("A", Col.num [1])]⟩)

/-- A sheet classified as revenue by its name. -/
def revSheet : String × Frame := ("Receitas 2024", ⟨1, [("Jan", Col.num [5])]⟩)

/-- A sheet classified as variable costs by its name. -/
def costSheet : String × Frame := ("Custo variável", ⟨1, [("Jan", Col.num [2])]⟩)

/-- C6 witness: a keyword-free sheet classifies to no category and its
presence between two recognised sheets does not change the extracted
dataset. -/
theorem claim_C6_witness :
    identifySheetCategory plainSheet.1 plainSheet.2 = none
    ∧ extractFinancialData ([revSheet] ++ plainSheet :: [costSheet]) =
        extractFinancialData ([revSheet] ++ [costSheet])
    ∧ (identifySheetCategory revSheet.1 revSheet.2 = some .revenue ↔
        (firstKeywordMatch (pyLower revSheet.1) = some .revenue
         ∨ (firstKeywordMatch (pyLower revSheet.1) = none
            ∧ firstKeywordMatch (sheetTextContent revSheet.2) = some .revenue)
         ∨ (firstKeywordMatch (pyLower revSheet.1) = none
            ∧ firstKeywordMatch (sheetTextContent revSheet.2) = none
            ∧ firstKeywordMatch (sheetHeaderText revSheet.2) = some .revenue))) := by
  refine ⟨by decide, ?_, (claim_C6 revSheet.1 revSheet.2).2.1 .revenue⟩
  exact (claim_C6 plainSheet.1 plainSheet.2).2.2 (by decide) [revSheet] [costSheet]

/-! ## C7 — structural validation: exact failure conditions -/

/-- C7: after the workbook is parsed, extraction fails with the structural
`ExcelValidationError` exactly when no sheet has tabular data, or no
category was recognised, or some recognised category's processed table has
no numeric column; otherwise it succeeds and returns the classified
dataset. -/
theorem claim_C7 (sheets : List (String × Frame)) :
    ((∃ err, processExcelData sheets = .error err) ↔
      ((¬ ∃ s ∈ sheets, s.2.isEmptyF = false)
        ∨ extractFinancialData sheets = []
        ∨ ∃ e ∈ extractFinancialData sheets, e.2.numericCols = []))
    ∧ (∀ out, processExcelData sheets = .ok out →
        out.data = extractFinancialData sheets) := by
  constructor
  · unfold processExcelData
    by_cases hnil : sheets.isEmpty
    · have hs : sheets = [] := List.isEmpty_iff.mp hnil
      subst hs
      simp
    · simp only [hnil, Bool.false_eq_true, if_false]
      by_cases htab : hasTabularData sheets = true
      · have hex : ∃ s ∈ sheets, s.2.isEmptyF = false := by
          obtain ⟨s, hs, hp⟩ := List.any_eq_true.mp htab
          exact ⟨s, hs, by simpa using hp⟩
        simp only [htab, Bool.not_true, Bool.false_eq_true, if_false]
        by_cases hdata : (extractFinancialData sheets).isEmpty
        · have hd : extractFinancialData sheets = [] := List.isEmpty_iff.mp hdata
          simp [hd, hex]
        · have hd : extractFinancialData sheets ≠ [] := by
            simpa [List.isEmpty_iff] using hdata
          simp only [hdata, Bool.false_eq_true, if_false]
          cases hfind : (extractFinancialData sheets).find?
              (fun e => e.2.numericCols.isEmpty) with
          | some e =>
            have hmem := List.mem_of_find?_eq_some hfind
            have hprop : e.2.numericCols = [] := by
              simpa [List.isEmpty_iff] using List.find?_some hfind
            constructor
            · intro _
              exact Or.inr (Or.inr ⟨e, hmem, hprop⟩)
            · intro _
              exact ⟨_, rfl⟩
          | none =>
            have hall := List.find?_eq_none.mp hfind
            simp only [reduceCtorEq, exists_false, false_iff]
            push_neg
            refine ⟨hex, hd, fun e he => ?_⟩
            simpa [List.isEmpty_iff] using hall e he
      · have hno : ¬ ∃ s ∈ sheets, s.2.isEmptyF = false := by
          rintro ⟨s, hs, hp⟩
          exact htab (List.any_eq_true.mpr ⟨s, hs, by simp [hp]⟩)
        simp [htab, hno]
  · intro out hout
    unfold processExcelData at hout
    by_cases hnil : sheets.isEmpty
    · simp [hnil] at hout
    · simp only [hnil, Bool.false_eq_true, if_false] at hout
      by_cases htab : hasTabularData sheets = true
      · simp only [htab, Bool.not_true, Bool.false_eq_true, if_false] at hout
        by_cases hdata : (extractFinancialData sheets).isEmpty
        · simp [hdata] at hout
        · simp only [hdata, Bool.false_eq_true, if_false] at hout
          cases hfind : (extractFinancialData sheets).find?
              (fun e => e.2.numericCols.isEmpty) with
          | some e => rw [hfind] at hout; exact absurd hout (by simp)
          | none =>
            rw [hfind] at hout
            cases Except.ok.inj hout
            rfl
      · simp [htab] at hout

/-- C7 witness: one recognised revenue sheet passes validation and the
returned dataset is the extracted one; the empty workbook fails. -/
theorem claim_C7_witness :
    processExcelData [revSheet] =
      .ok ⟨[("receitas", ⟨1, [("Jan", Col.num [5])]⟩)]⟩
    ∧ (⟨[("receitas", ⟨1, [("Jan", Col.num [5])]⟩)]⟩ : ProcOutput).data =
        extractFinancialData [revSheet]
    ∧ (∃ err, processExcelData [] = .error err) := by
  refine ⟨by decide, (claim_C7 [revSheet]).2 _ (by decide), ?_⟩
  exact (claim_C7 []).1.mpr (by simp)

/-! ## Column-update lemmas -/

theorem colVals_setNumCol_self (f : Frame) (c : String) (vals : List ℚ) :
    (f.setNumCol c vals).colVals c = vals := by
  show colValsList (setColList f.cols c (Col.num vals)) c = vals
  induction f.cols with
  | nil => simp [setColList, colValsList, Col.numVals]
  | cons e rest ih =>
    by_cases h : e.1 = c
    · simp [setColList, colValsList, h, Col.numVals]
    · simp [setColList, colValsList, h, ih]

theorem colVals_setNumCol_ne (f : Frame) {c' c : String} (vals : List ℚ)
    (h : c' ≠ c) : (f.setNumCol c' vals).colVals c = f.colVals c := by
  show colValsList (setColList f.cols c' (Col.num vals)) c = colValsList f.cols c
  induction f.cols with
  | nil => simp [setColList, colValsList, h]
  | cons e rest ih =>
    by_cases he : e.1 = c'
    · simp [setColList, colValsList, he, h, Ne.symm (he ▸ h : e.1 ≠ c)]
    · by_cases hc : e.1 = c
      · simp [setColList, colValsList, he, hc, Ne.symm h]
      · simp [setColList, colValsList, he, hc, ih]

theorem colNames_setColList (l : List (String × Col)) (c : String) (v : Col) :
    (setColList l c v).map Prod.fst =
      if c ∈ l.map Prod.fst then l.map Prod.fst else l.map Prod.fst ++ [c] := by
  induction l with
  | nil => simp [setColList]
  | cons e rest ih =>
    by_cases h : e.1 = c
    · simp [setColList, h]
    · simp only [setColList, h, if_false, List.map_cons, ih]
      by_cases hm : c ∈ rest.map Prod.fst <;>
        simp [hm, Ne.symm h, List.mem_cons]

theorem colNames_setNumCol (f : Frame) (c : String) (vals : List ℚ) :
    (f.setNumCol c vals).colNames =
      if c ∈ f.colNames then f.colNames else f.colNames ++ [c] :=
  colNames_setColList f.cols c (Col.num vals)

theorem colNames_nodup_setNumCol {f : Frame} (c : String) (vals : List ℚ)
    (h : f.colNames.Nodup) : (f.setNumCol c vals).colNames.Nodup := by
  rw [colNames_setNumCol]
  by_cases hm : c ∈ f.colNames
  · simpa [hm] using h
  · simp only [hm, if_false]
    simpa [List.nodup_append, hm] using h

theorem nrows_setNumCol (f : Frame) (c : String) (vals : List ℚ) :
    (f.setNumCol c vals).nrows = f.nrows := rfl

theorem filterNum_map_setColList {l : List (String × Col)} {c : String}
    (vals : List ℚ) (hn : (l.map Prod.fst).Nodup)
    (hc : c ∈ (l.filter (fun e => e.2.isNum)).map Prod.fst) :
    ((setColList l c (Col.num vals)).filter (fun e => e.2.isNum)).map Prod.fst =
      (l.filter (fun e => e.2.isNum)).map Prod.fst := by
  induction l with
  | nil => simp at hc
  | cons e rest ih =>
    rw [List.map_cons, List.nodup_cons] at hn
    by_cases h : e.1 = c
    · have hnum : e.2.isNum = true := by
        by_contra hb
        have hb' : e.2.isNum = false := by simpa using hb
        rw [List.filter_cons_of_neg (by simp [hb'])] at hc
        have hsub : (rest.filter (fun e => e.2.isNum)).map Prod.fst
            |>.Sublist (rest.map Prod.fst) :=
          List.Sublist.map Prod.fst (List.filter_sublist rest)
        exact hn.1 (h ▸ hsub.mem hc)
      rw [show setColList (e :: rest) c (Col.num vals) = (c, Col.num vals) :: rest from by
        simp [setColList, h]]
      rw [List.filter_cons_of_pos (by simp [Col.isNum]),
        List.filter_cons_of_pos (by simp [hnum])]
      simp [h]
    · rw [show setColList (e :: rest) c (Col.num vals) =
          e :: setColList rest c (Col.num vals) from by simp [setColList, h]]
      cases hi : e.2.isNum with
      | true =>
        rw [List.filter_cons_of_pos (by simp [hi]), List.filter_cons_of_pos (by simp [hi])]
        rw [List.filter_cons_of_pos (by simp [hi])] at hc
        simp only [List.map_cons] at hc ⊢
        rcases List.mem_cons.mp hc with hc1 | hc2
        · exact absurd hc1.symm h
        · rw [ih hn.2 hc2]
      | false =>
        rw [List.filter_cons_of_neg (by simp [hi]), List.filter_cons_of_neg (by simp [hi])]
        rw [List.filter_cons_of_neg (by simp [hi])] at hc
        exact ih hn.2 hc

/-- `numericCols` is unchanged by writing a numeric column over a label
already among the numeric columns (column names duplicate-free). -/
theorem numericCols_setNumCol {f : Frame} {c : String} (vals : List ℚ)
    (hn : f.colNames.Nodup) (hc : c ∈ f.numericCols) :
    (f.setNumCol c vals).numericCols = f.numericCols :=
  filterNum_map_setColList vals hn hc

theorem numericCols_nodup {f : Frame} (hn : f.colNames.Nodup) :
    f.numericCols.Nodup :=
  ((List.filter_sublist f.cols).map Prod.fst).nodup hn

theorem mem_colNames_of_mem_numericCols {f : Frame} {c : String}
    (h : c ∈ f.numericCols) : c ∈ f.colNames :=
  ((List.filter_sublist f.cols).map Prod.fst).mem h

/-! ## Fold lemmas for the per-column update loops -/

/-- Per-column multiplicative update loop: with duplicate-free update
names, the column labelled `c` ends as its original values times the
factor paired with `c`, and untouched otherwise. -/
theorem foldl_mulColBy_colVals (c : String) (ps : List (String × ℚ)) :
    ∀ f : Frame, (ps.map Prod.fst).Nodup →
      (ps.foldl (fun acc e => mulColBy acc e.1 e.2) f).colVals c =
        match ps.find? (fun e => decide (e.1 = c)) with
        | some e => (f.colVals c).map (· * e.2)
        | none => f.colVals c := by
  induction ps with
  | nil => intro f _; rfl
  | cons e ps' ih =>
    intro f hnd
    rw [List.map_cons, List.nodup_cons] at hnd
    rw [List.foldl_cons, ih _ hnd.2]
    by_cases h : e.1 = c
    · have hc : c ∉ ps'.map Prod.fst := h ▸ hnd.1
      have hfind : ps'.find? (fun e' => decide (e'.1 = c)) = none := by
        rw [List.find?_eq_none]
        intro a ha
        simp only [decide_eq_true_eq]
        exact fun hac => hc (hac ▸ List.mem_map_of_mem Prod.fst ha)
      rw [hfind, List.find?_cons_of_pos _ (by simp [h])]
      show (mulColBy f e.1 e.2).colVals c = _
      rw [mulColBy, h, colVals_setNumCol_self]
    · rw [List.find?_cons_of_neg _ (by simp [h])]
      have hne : (mulColBy f e.1 e.2).colVals c = f.colVals c :=
        colVals_setNumCol_ne _ _ h
      cases hfind : ps'.find? (fun e' => decide (e'.1 = c)) with
      | some e' => rw [hne]
      | none => rw [hne]

/-- Per-column assignment loop with optional precomputed values. -/
theorem foldl_setOpt_colVals (c : String) (ps : List (String × Option (List ℚ))) :
    ∀ f : Frame, (ps.map Prod.fst).Nodup →
      (ps.foldl (fun acc e =>
          match e.2 with
          | some vs => acc.setNumCol e.1 vs
          | none => acc) f).colVals c =
        match ps.find? (fun e => decide (e.1 = c)) with
        | some (_, some vs) => vs
        | some (_, none) => f.colVals c
        | none => f.colVals c := by
  induction ps with
  | nil => intro f _; rfl
  | cons e ps' ih =>
    intro f hnd
    rw [List.map_cons, List.nodup_cons] at hnd
    rw [List.foldl_cons, ih _ hnd.2]
    by_cases h : e.1 = c
    · have hc : c ∉ ps'.map Prod.fst := h ▸ hnd.1
      have hfind : ps'.find? (fun e' => decide (e'.1 = c)) = none := by
        rw [List.find?_eq_none]
        intro a ha
        simp only [decide_eq_true_eq]
        exact fun hac => hc (hac ▸ List.mem_map_of_mem Prod.fst ha)
      rw [hfind, List.find?_cons_of_pos _ (by simp [h])]
      rcases e with ⟨n, o⟩
      cases o with
      | some vs =>
        show (Frame.setNumCol f n vs).colVals c = vs
        rw [show n = c from h, colVals_setNumCol_self]
      | none => rfl
    · rw [List.find?_cons_of_neg _ (by simp [h])]
      have hne : (match e.2 with
          | some vs => f.setNumCol e.1 vs
          | none => f).colVals c = f.colVals c := by
        cases e.2 with
        | some vs => exact colVals_setNumCol_ne _ _ h
        | none => rfl
      cases hfind : ps'.find? (fun e' => decide (e'.1 = c)) with
      | some e' =>
        rcases e' with ⟨n', o'⟩
        cases o' <;> rw [hne]
      | none => rw [hne]

theorem scaleRevenueAggressive_eq_fold (ig gr : ℚ) (f : Frame) :
    scaleRevenueAggressive ig gr f =
      (f.numericCols.enum.map (fun e => (e.2, 1 + ig + (e.1 : ℚ) * gr))).foldl
        (fun acc e => mulColBy acc e.1 e.2) f := by
  rw [scaleRevenueAggressive, List.foldl_map]

theorem applyGrowthFrom_eq_fold (share : ℚ) (growth : List ℚ) (orig f : Frame) :
    applyGrowthFrom share growth orig f =
      (f.numericCols.enum.map (fun e =>
          (e.2, (growth.get? e.1).map
            (fun g => (orig.colVals e.2).map (· * (1 + (g - 1) * share)))))).foldl
        (fun acc e =>
          match e.2 with
          | some vs => acc.setNumCol e.1 vs
          | none => acc) f := by
  rw [applyGrowthFrom, List.foldl_map]
  congr 1
  funext acc e
  cases hg : growth.get? e.1 <;> simp [hg]

/-- Locating the update pair of the `i`-th column in an enumerated,
duplicate-free column list. -/
theorem find?_enumFrom_map {β : Type} (φ : ℕ × String → β) (cs : List String) :
    ∀ n i c, cs.Nodup → cs.get? i = some c →
      ((List.enumFrom n cs).map (fun e => (e.2, φ e))).find?
          (fun e => decide (e.1 = c)) = some (c, φ (n + i, c)) := by
  induction cs with
  | nil => intro n i c _ h; simp at h
  | cons x rest ih =>
    intro n i c hnd h
    cases i with
    | zero =>
      have hx : x = c := by simpa using h
      subst hx
      simp [List.enumFrom, List.find?_cons_of_pos]
    | succ i' =>
      have hc : c ∈ rest := List.get?_mem (by simpa using h)
      have hx : ¬ x = c := fun hxc => (List.nodup_cons.mp hnd).1 (hxc ▸ hc)
      rw [show List.enumFrom n (x :: rest) = (n, x) :: List.enumFrom (n + 1) rest
        from rfl]
      rw [List.map_cons, List.find?_cons_of_neg _ (by simp [hx])]
      rw [ih (n + 1) i' c (List.nodup_cons.mp hnd).2 (by simpa using h),
        show (n + 1 + i', c) = (n + (i' + 1), c) from by rw [show n + 1 + i' = n + (i' + 1) from by omega]]

/-- The update names of an enumerated column list are the columns
themselves. -/
theorem map_fst_enum_map {β : Type} (φ : ℕ × String → β) (cs : List String) :
    ∀ n, ((List.enumFrom n cs).map (fun e => (e.2, φ e))).map Prod.fst = cs := by
  induction cs with
  | nil => intro n; rfl
  | cons x rest ih =>
    intro n
    rw [show List.enumFrom n (x :: rest) = (n, x) :: List.enumFrom (n + 1) rest
      from rfl]
    simp only [List.map_cons, ih]

/-- `enum` as `enumFrom 0`. -/
theorem enum_eq_enumFrom {α : Type} (l : List α) : l.enum = List.enumFrom 0 l := rfl

/-! ## C9 — metrics guards -/

/-- Every successful `generate_scenario` response carries the metrics of
its own scenario data. -/
theorem generate_ok_metrics {σ : SetOrd} {τ : InterOrd} {d : Dataset}
    {st : String} {p : Option Params} {out : GenResponse}
    (h : generateScenario σ τ d st p = .ok out) :
    out.metrics = calculateScenarioMetrics out.data := by
  simp only [generateScenario] at h
  split at h
  · exact absurd h (by simp)
  · cases Except.ok.inj h
    rfl

/-- C9 (amended): the metrics computation never divides by zero — the
ratios are computed only when the denominator is strictly positive, and
are 0 otherwise.  In particular `margin_percentage = 0` when
`total_revenue = 0` and `roi = 0` when the investments grand sum is 0; but
for a strictly negative denominator the ratio is also 0 rather than the
formula value (see the counterexample). -/
theorem claim_C9 (σ : SetOrd) (τ : InterOrd) (d : Dataset) (st : String)
    (p : Option Params) (out : GenResponse)
    (h : generateScenario σ τ d st p = .ok out) :
    (out.metrics.margin_percentage =
      if 0 < out.metrics.total_revenue then
        out.metrics.total_margin / out.metrics.total_revenue * 100
      else 0)
    ∧ (out.metrics.roi =
      if 0 < groupGrandSum out.data INVESTMENT_CATEGORIES then
        out.metrics.total_cashflow / groupGrandSum out.data INVESTMENT_CATEGORIES * 100
      else 0)
    ∧ (out.metrics.total_revenue = 0 → out.metrics.margin_percentage = 0)
    ∧ (groupGrandSum out.data INVESTMENT_CATEGORIES = 0 → out.metrics.roi = 0) := by
  have hm := generate_ok_metrics h
  refine ⟨?_, ?_, ?_, ?_⟩
  · rw [hm]; rfl
  · rw [hm]; rfl
  · intro h0
    rw [hm] at h0 ⊢
    simp only [calculateScenarioMetrics] at h0 ⊢
    rw [h0]
    simp
  · intro h0
    rw [hm]
    simp only [calculateScenarioMetrics]
    rw [h0]
    simp

/-- A dataset with a strictly negative revenue grand sum. -/
def dC9 : Dataset :=
  [("receitas", ⟨1, [("Jan", Col.num [-100])]⟩),
   ("custos_variaveis", ⟨1, [("Jan", Col.num [50])]⟩),
   ("despesas_pessoal", ⟨1, [("Jan", Col.num [0])]⟩)]

/-- The realistic output on `dC9`. -/
def dC9out : Dataset := dC9 ++
  [("margem_contribuicao", ⟨1, [("Jan", Col.num [-150])]⟩),
   ("fluxo_de_caixa", ⟨1, [("Jan", Col.num [-150])]⟩),
   ("saldo_final", ⟨1, [("Jan", Col.num [-150])]⟩)]

set_option maxRecDepth 8000 in
theorem genReal_dC9 : generateScenario sigmaSort tauSort dC9 "realista" none =
    .ok ⟨"realista", dC9out, ⟨-100, 50, 0, -150, -150, -150, 0, 0⟩⟩ := by
  have h1 : recalculateDerivedValues sigmaSort tauSort dC9 = some dC9out := by
    simp +decide only [recalculateDerivedValues, findCommonNumericColumns,
      createOrGetDataframe, sumCategoryValues, sumHist, sumColsAt, Frame.numericCols,
      Frame.colNames, Frame.colSum, Frame.colVals, colValsList, Col.isNum, Col.numVals,
      Frame.isEmptyF, npSub, npCumsum, cumsumFrom, updateDataframeWithValues, padTrim,
      setScalarCol, Frame.setNumCol, setColList, sigmaSort, tauSort,
      List.insertionSort, List.orderedInsert, strLE, strKey, keyLE, List.dedup, dC9,
      dC9out, REVENUE_CATEGORIES, VARIABLE_COST_CATEGORIES, FIXED_EXPENSE_CATEGORIES,
      dget, dset, List.filter, List.map, List.foldl, List.zip, List.zipWith, List.take,
      List.replicate, List.flatMap, List.isEmpty, List.any, List.all, List.elem,
      List.length, List.append, ite_true, ite_false, if_true, if_false]
    norm_num
  have h2 : generateScenario sigmaSort tauSort dC9 "realista" none =
      .ok ⟨"realista", dC9out, calculateScenarioMetrics dC9out⟩ := by
    simp +decide only [generateScenario, generateRealisticScenario, h1, if_true,
      if_false, ite_true, ite_false]
  rw [h2]
  simp +decide only [calculateScenarioMetrics, groupGrandSum, catGrandSum,
    finalBalanceMetric, Frame.grandSum, Col.isNum, Col.numVals, dget, dC9out, dC9,
    REVENUE_CATEGORIES, VARIABLE_COST_CATEGORIES, FIXED_EXPENSE_CATEGORIES,
    INVESTMENT_CATEGORIES, List.filter, List.map, List.append, List.getLast?,
    Option.getD, GenResponse.mk.injEq, Metrics.mk.injEq, Except.ok.injEq]
  norm_num

/-- C9 counterexample: on `dC9` the realistic scenario has
`total_revenue = -100 ≠ 0` and `total_margin = -150`, so the claim's
"otherwise" formula gives `(-150)/(-100)*100 = 150`, but the code (which
guards on `> 0`, not `≠ 0`) reports `margin_percentage = 0`. -/
theorem claim_C9_counterexample :
    generateScenario sigmaSort tauSort dC9 "realista" none =
      .ok ⟨"realista", dC9out, ⟨-100, 50, 0, -150, -150, -150, 0, 0⟩⟩
    ∧ (-100 : ℚ) ≠ 0
    ∧ (⟨-100, 50, 0, -150, -150, -150, 0, 0⟩ : Metrics).margin_percentage = 0
    ∧ (-150 : ℚ) / (-100) * 100 = 150
    ∧ (0 : ℚ) ≠ 150 := by
  refine ⟨genReal_dC9, by norm_num, rfl, by norm_num, by norm_num⟩

/-- C9 witness (for the amended guards), at the concrete realistic run on
the spec's dataset: `total_revenue = 300000 > 0` so the percentage is the
ratio, and the investments grand sum is 0 so `roi = 0`. -/
theorem claim_C9_witness :
    ((⟨"realista", dWrealOut, ⟨300000, 90000, 0, 210000, 210000, 70000, 70, 0⟩⟩ :
        GenResponse).metrics.margin_percentage =
      if 0 < (⟨"realista", dWrealOut, ⟨300000, 90000, 0, 210000, 210000, 70000, 70, 0⟩⟩ :
          GenResponse).metrics.total_revenue then
        (⟨"realista", dWrealOut, ⟨300000, 90000, 0, 210000, 210000, 70000, 70, 0⟩⟩ :
          GenResponse).metrics.total_margin /
          (⟨"realista", dWrealOut, ⟨300000, 90000, 0, 210000, 210000, 70000, 70, 0⟩⟩ :
            GenResponse).metrics.total_revenue * 100
      else 0)
    ∧ ((⟨"realista", dWrealOut, ⟨300000, 90000, 0, 210000, 210000, 70000, 70, 0⟩⟩ :
        GenResponse).metrics.total_revenue = 0 →
      (⟨"realista", dWrealOut, ⟨300000, 90000, 0, 210000, 210000, 70000, 70, 0⟩⟩ :
        GenResponse).metrics.margin_percentage = 0) := by
  have h := claim_C9 sigmaSort tauSort dW "realista" none _ genReal_dW
  exact ⟨h.1, h.2.2.1⟩

/-! ## Shape preservation of the adjustment loops -/

theorem shape_scaleFrameNumeric (k : ℚ) (f : Frame) :
    (scaleFrameNumeric k f).colNames = f.colNames
    ∧ (scaleFrameNumeric k f).numericCols = f.numericCols
    ∧ (scaleFrameNumeric k f).nrows = f.nrows := by
  refine ⟨?_, ?_, rfl⟩
  · show (f.cols.map _).map Prod.fst = f.cols.map Prod.fst
    induction f.cols with
    | nil => rfl
    | cons e rest ih =>
      rcases e with ⟨n, col⟩
      cases col <;> simpa using ih
  · show ((f.cols.map _).filter _).map Prod.fst = (f.cols.filter _).map Prod.fst
    induction f.cols with
    | nil => rfl
    | cons e rest ih =>
      rcases e with ⟨n, col⟩
      cases col <;> simpa [Col.isNum] using ih

theorem foldl_colUpdate_shape {β : Type} (step : Frame → (String × β) → Frame)
    (hstep : ∀ f e, f.colNames.Nodup → e.1 ∈ f.numericCols →
      (step f e).numericCols = f.numericCols ∧ (step f e).colNames = f.colNames ∧
      (step f e).nrows = f.nrows)
    (ps : List (String × β)) :
    ∀ f, f.colNames.Nodup → (∀ e ∈ ps, e.1 ∈ f.numericCols) →
      (ps.foldl step f).numericCols = f.numericCols ∧
      (ps.foldl step f).colNames = f.colNames ∧ (ps.foldl step f).nrows = f.nrows := by
  induction ps with
  | nil => intro f _ _; exact ⟨rfl, rfl, rfl⟩
  | cons e ps' ih =>
    intro f hn hmem
    obtain ⟨hnum, hnames, hrows⟩ := hstep f e hn (hmem e (List.mem_cons_self e ps'))
    have hn' : (step f e).colNames.Nodup := hnames ▸ hn
    have hmem' : ∀ e' ∈ ps', e'.1 ∈ (step f e).numericCols := fun e' he' =>
      hnum ▸ hmem e' (List.mem_cons_of_mem e he')
    obtain ⟨h1, h2, h3⟩ := ih (step f e) hn' hmem'
    exact ⟨h1.trans hnum, h2.trans hnames, h3.trans hrows⟩

theorem shape_scaleRevenueAggressive (ig gr : ℚ) (f : Frame)
    (hn : f.colNames.Nodup) :
    (scaleRevenueAggressive ig gr f).numericCols = f.numericCols
    ∧ (scaleRevenueAggressive ig gr f).colNames = f.colNames
    ∧ (scaleRevenueAggressive ig gr f).nrows = f.nrows := by
  rw [scaleRevenueAggressive_eq_fold]
  refine foldl_colUpdate_shape _ ?_ _ f hn ?_
  · intro f' e hn' hmem
    refine ⟨numericCols_setNumCol _ hn' hmem, ?_, rfl⟩
    rw [mulColBy, colNames_setNumCol]
    simp [mem_colNames_of_mem_numericCols hmem]
  · intro e he
    have := List.mem_map.mp he
    obtain ⟨⟨i, c⟩, hic, rfl⟩ := this
    have : c ∈ f.numericCols := by
      have hsnd : ((i, c) : ℕ × String).2 ∈ (f.numericCols.enum.map Prod.snd) :=
        List.mem_map_of_mem Prod.snd hic
      rw [enum_eq_enumFrom, List.enumFrom_map_snd] at hsnd
      exact hsnd
    simpa using this

theorem shape_applyGrowthFrom (share : ℚ) (growth : List ℚ) (orig f : Frame)
    (hn : f.colNames.Nodup) :
    (applyGrowthFrom share growth orig f).numericCols = f.numericCols
    ∧ (applyGrowthFrom share growth orig f).colNames = f.colNames
    ∧ (applyGrowthFrom share growth orig f).nrows = f.nrows := by
  rw [applyGrowthFrom_eq_fold]
  refine foldl_colUpdate_shape _ ?_ _ f hn ?_
  · intro f' e hn' hmem
    cases e.2 with
    | some vs =>
      refine ⟨numericCols_setNumCol _ hn' hmem, ?_, rfl⟩
      rw [colNames_setNumCol]
      simp [mem_colNames_of_mem_numericCols hmem]
    | none => exact ⟨rfl, rfl, rfl⟩
  · intro e he
    obtain ⟨⟨i, c⟩, hic, rfl⟩ := List.mem_map.mp he
    have hsnd : ((i, c) : ℕ × String).2 ∈ (f.numericCols.enum.map Prod.snd) :=
      List.mem_map_of_mem Prod.snd hic
    rw [enum_eq_enumFrom, List.enumFrom_map_snd] at hsnd
    simpa using hsnd

/-! ## Branch extraction for `generate_scenario` -/

theorem generate_aggressive_ok {σ : SetOrd} {τ : InterOrd} {d : Dataset}
    {p : Option Params} {out : GenResponse}
    (h : generateScenario σ τ d "agressivo" p = .ok out) :
    generateAggressiveScenario σ τ d p = some out.data := by
  simp +decide only [generateScenario, if_true, if_false, ite_true, ite_false] at h
  cases hagg : generateAggressiveScenario σ τ d p with
  | none => rw [hagg] at h; exact absurd h (by simp)
  | some sd => rw [hagg] at h; cases Except.ok.inj h; rfl

theorem generate_realistic_ok {σ : SetOrd} {τ : InterOrd} {d : Dataset}
    {p : Option Params} {out : GenResponse}
    (h : generateScenario σ τ d "realista" p = .ok out) :
    generateRealisticScenario σ τ d = some out.data := by
  simp +decide only [generateScenario, if_true, if_false, ite_true, ite_false] at h
  cases hg : generateRealisticScenario σ τ d with
  | none => rw [hg] at h; exact absurd h (by simp)
  | some sd => rw [hg] at h; cases Except.ok.inj h; rfl

theorem generate_pessimistic_ok {σ : SetOrd} {τ : InterOrd} {d : Dataset}
    {p : Option Params} {out : GenResponse}
    (h : generateScenario σ τ d "pessimista" p = .ok out) :
    generatePessimisticScenario σ τ d p = some out.data := by
  simp +decide only [generateScenario, if_true, if_false, ite_true, ite_false] at h
  cases hg : generatePessimisticScenario σ τ d p with
  | none => rw [hg] at h; exact absurd h (by simp)
  | some sd => rw [hg] at h; cases Except.ok.inj h; rfl

theorem generate_optimistic_ok {σ : SetOrd} {τ : InterOrd} {d : Dataset}
    {p : Option Params} {out : GenResponse}
    (h : generateScenario σ τ d "otimista" p = .ok out) :
    generateOptimisticScenario σ τ d p = some out.data := by
  simp +decide only [generateScenario, if_true, if_false, ite_true, ite_false] at h
  cases hg : generateOptimisticScenario σ τ d p with
  | none => rw [hg] at h; exact absurd h (by simp)
  | some sd => rw [hg] at h; cases Except.ok.inj h; rfl

/-- The revenue/investment-adjusted dataset of the aggressive scenario. -/
def aggD2 (d : Dataset) : Dataset :=
  dmodify (dmodify d "receitas" (scaleRevenueAggressive (30/100) (5/100)))
    "investimentos" (scaleFrameNumeric (1 + 25/100))

/-- The per-column revenue growth ratios of the aggressive scenario (with
default parameters). -/
def aggGrowth (σ : SetOrd) (d : Dataset) : List ℚ :=
  List.zipWith (fun n o => if o = 0 then 1 else n / o)
    (sumCategoryValues σ (aggD2 d) ["receitas"]).2
    (sumCategoryValues σ d ["receitas"]).2

/-- One cost/expense growth step of the aggressive scenario. -/
def growthStep (orig : Dataset) (share : ℚ) (growth : List ℚ) (acc : Dataset)
    (fk : String) : Dataset :=
  match dget orig fk with
  | some origF => dmodify acc fk (applyGrowthFrom share growth origF)
  | none => acc

/-- The fully adjusted dataset of the aggressive scenario with default
parameters, before recalculation. -/
def aggD4 (σ : SetOrd) (d : Dataset) : Dataset :=
  if (sumCategoryValues σ d ["receitas"]).2.length ≠ 0 ∧
      (sumCategoryValues σ (aggD2 d) ["receitas"]).2.length ≠ 0 then
    growthStep d (50/100) (aggGrowth σ d)
      (growthStep d (50/100) (aggGrowth σ d)
        (growthStep d (50/100) (aggGrowth σ d)
          (growthStep d (80/100) (aggGrowth σ d) (aggD2 d) "custos_variaveis")
          "despesas_pessoal")
        "despesas_comerciais")
      "despesas_administrativas"
  else aggD2 d

theorem aggressive_unfold (σ : SetOrd) (τ : InterOrd) (d : Dataset) :
    generateAggressiveScenario σ τ d none =
      recalculateDerivedValues σ τ (aggD4 σ d) := rfl

theorem dget_growthStep_ne {orig acc : Dataset} {fk k : String} (share : ℚ)
    (growth : List ℚ) (hne : fk ≠ k) :
    dget (growthStep orig share growth acc fk) k = dget acc k := by
  rw [growthStep]
  cases dget orig fk with
  | some o => exact dget_dmodify_ne _ _ hne
  | none => rfl

theorem dget_growthStep_self {orig acc : Dataset} {fk : String} (share : ℚ)
    (growth : List ℚ) {origF : Frame} (horig : dget orig fk = some origF) :
    dget (growthStep orig share growth acc fk) fk =
      (dget acc fk).map (applyGrowthFrom share growth origF) := by
  rw [growthStep, horig]
  exact dget_dmodify_self _ _ _

/-! ## C3 — aggressive scenario with default parameters -/

/-- C3 (amended): with default parameters the aggressive scenario
multiplies the `i`-th numeric revenue column by `1 + 0.30 + i*0.05` and
every numeric investment value by 1.25; each variable-cost (resp.
fixed-expense) column at numeric index `i` is set to the original values
times `1 + (g−1)*0.8` (resp. `*0.5`), where `g` is the
post-over-pre revenue sum ratio (clamped to 1 on a zero denominator) of
the column at position `i` of the engine's set-iteration order of the
revenue columns — not necessarily the `i`-th revenue column itself — and
columns with no matching growth entry are left unchanged. -/
theorem claim_C3 (σ : SetOrd) (τ : InterOrd) (hadm : SetOrdAdm σ) (d : Dataset)
    (out : GenResponse) (h : generateScenario σ τ d "agressivo" none = .ok out)
    (R : Frame) (hR : dget d "receitas" = some R) (hRn : R.colNames.Nodup) :
    (∀ G, dget out.data "receitas" = some G →
      ∀ i c, R.numericCols.get? i = some c →
        G.colVals c = (R.colVals c).map (· * (1 + 30/100 + (i : ℚ) * (5/100))))
    ∧ dget out.data "investimentos" =
        (dget d "investimentos").map (scaleFrameNumeric (1 + 25/100))
    ∧ (∀ V, dget d "custos_variaveis" = some V → V.colNames.Nodup →
        ∀ G, dget out.data "receitas" = some G →
        ∀ W, dget out.data "custos_variaveis" = some W →
        ∀ i c, V.numericCols.get? i = some c →
          (∀ c', (σ R.numericCols).get? i = some c' →
            W.colVals c = (V.colVals c).map (· *
              (1 + ((if R.colSum c' = 0 then 1 else G.colSum c' / R.colSum c') - 1)
                * (80/100))))
          ∧ ((σ R.numericCols).get? i = none → W.colVals c = V.colVals c))
    ∧ (∀ fk, fk ∈ FIXED_EXPENSE_CATEGORIES →
        ∀ P, dget d fk = some P → P.colNames.Nodup →
        ∀ G, dget out.data "receitas" = some G →
        ∀ W, dget out.data fk = some W →
        ∀ i c, P.numericCols.get? i = some c →
          (∀ c', (σ R.numericCols).get? i = some c' →
            W.colVals c = (P.colVals c).map (· *
              (1 + ((if R.colSum c' = 0 then 1 else G.colSum c' / R.colSum c') - 1)
                * (50/100))))
          ∧ ((σ R.numericCols).get? i = none → W.colVals c = P.colVals c)) := by
  have hagg := generate_aggressive_ok h
  rw [aggressive_unfold] at hagg
  have hshape := shape_scaleRevenueAggressive (30/100) (5/100) R hRn
  -- lookups in the adjusted pre-growth dataset
  have hD2rev : dget (aggD2 d) "receitas" =
      some (scaleRevenueAggressive (30/100) (5/100) R) := by
    rw [aggD2, dget_dmodify_ne _ _ (by decide), dget_dmodify_self, hR]
    rfl
  have hD2other : ∀ k, k ≠ "receitas" → k ≠ "investimentos" →
      dget (aggD2 d) k = dget d k := by
    intro k h1 h2
    rw [aggD2, dget_dmodify_ne _ _ (Ne.symm h2), dget_dmodify_ne _ _ (Ne.symm h1)]
  -- column sums of the revenue category, before and after adjustment
  have hsumHist1 : sumHist d ["receitas"] = R.numericCols := by
    simp [sumHist, hR]
  have hsumHist2 : sumHist (aggD2 d) ["receitas"] = R.numericCols := by
    simp [sumHist, hD2rev, hshape.1]
  have horigList : (sumCategoryValues σ d ["receitas"]).2 =
      (σ R.numericCols).map (sumColsAt d ["receitas"]) := by
    simp only [sumCategoryValues, hsumHist1]
  have hnewList : (sumCategoryValues σ (aggD2 d) ["receitas"]).2 =
      (σ R.numericCols).map (sumColsAt (aggD2 d) ["receitas"]) := by
    simp only [sumCategoryValues, hsumHist2]
  have hmemL : ∀ c', c' ∈ σ R.numericCols → c' ∈ R.colNames := by
    intro c' hc'
    exact mem_colNames_of_mem_numericCols (((hadm R.numericCols).2 c').mp hc')
  have hsum_d : ∀ c', c' ∈ σ R.numericCols →
      sumColsAt d ["receitas"] c' = R.colSum c' := by
    intro c' hc'
    simp [sumColsAt, hR, hmemL c' hc']
  have hsum_d2 : ∀ c', c' ∈ σ R.numericCols →
      sumColsAt (aggD2 d) ["receitas"] c' =
        (scaleRevenueAggressive (30/100) (5/100) R).colSum c' := by
    intro c' hc'
    have hm : c' ∈ (scaleRevenueAggressive (30/100) (5/100) R).colNames := by
      rw [hshape.2.1]
      exact hmemL c' hc'
    simp [sumColsAt, hD2rev, hm]
  have hGrowthEq : aggGrowth σ d = (σ R.numericCols).map
      (fun c' => if sumColsAt d ["receitas"] c' = 0 then 1
        else sumColsAt (aggD2 d) ["receitas"] c' / sumColsAt d ["receitas"] c') := by
    rw [aggGrowth, horigList, hnewList, List.zipWith_map, List.zipWith_same]
  -- the guard of the growth block
  have hguard : (R.numericCols ≠ []) →
      ((sumCategoryValues σ d ["receitas"]).2.length ≠ 0 ∧
        (sumCategoryValues σ (aggD2 d) ["receitas"]).2.length ≠ 0) := by
    intro hne
    obtain ⟨a, ha⟩ := List.exists_mem_of_ne_nil _ hne
    have haσ : a ∈ σ R.numericCols := ((hadm R.numericCols).2 a).mpr ha
    have hσne : σ R.numericCols ≠ [] := List.ne_nil_of_mem haσ
    constructor
    · rw [horigList]
      simpa [List.length_eq_zero] using hσne
    · rw [hnewList]
      simpa [List.length_eq_zero] using hσne
  have hguard' : (R.numericCols = []) →
      ¬((sumCategoryValues σ d ["receitas"]).2.length ≠ 0 ∧
        (sumCategoryValues σ (aggD2 d) ["receitas"]).2.length ≠ 0) := by
    intro hnil
    have hσnil : σ R.numericCols = [] := by
      rw [List.eq_nil_iff_forall_not_mem]
      intro a ha
      have := ((hadm R.numericCols).2 a).mp ha
      rw [hnil] at this
      exact absurd this (List.not_mem_nil a)
    rw [horigList, hσnil]
    simp
  -- revenue and investments across the growth block
  have hD4rev : dget (aggD4 σ d) "receitas" =
      some (scaleRevenueAggressive (30/100) (5/100) R) := by
    rw [aggD4]
    split
    · rw [dget_growthStep_ne _ _ (by decide), dget_growthStep_ne _ _ (by decide),
        dget_growthStep_ne _ _ (by decide), dget_growthStep_ne _ _ (by decide)]
      exact hD2rev
    · exact hD2rev
  have houtRev : dget out.data "receitas" =
      some (scaleRevenueAggressive (30/100) (5/100) R) := by
    rw [dget_recalc_ne hagg (by decide) (by decide) (by decide)]
    exact hD4rev
  -- the shared per-column computation for cost/expense categories
  have hcore : ∀ (share : ℚ) (P W : Frame), P.colNames.Nodup →
      W = applyGrowthFrom share (aggGrowth σ d) P P →
      ∀ i c, P.numericCols.get? i = some c →
        (∀ c', (σ R.numericCols).get? i = some c' →
          W.colVals c = (P.colVals c).map (· *
            (1 + ((if R.colSum c' = 0 then 1
              else (scaleRevenueAggressive (30/100) (5/100) R).colSum c' / R.colSum c')
              - 1) * share)))
        ∧ ((σ R.numericCols).get? i = none → W.colVals c = P.colVals c) := by
    intro share P W hPn hW i c hic
    have hPnd : P.numericCols.Nodup := numericCols_nodup hPn
    have hfold : W.colVals c =
        ((aggGrowth σ d).get? i).elim (P.colVals c)
          (fun g => (P.colVals c).map (· * (1 + (g - 1) * share))) := by
      rw [hW, applyGrowthFrom_eq_fold,
        foldl_setOpt_colVals c _ P (by rw [enum_eq_enumFrom, map_fst_enum_map]; exact hPnd),
        enum_eq_enumFrom, find?_enumFrom_map _ _ 0 i c hPnd hic]
      simp only [Nat.zero_add]
      cases (aggGrowth σ d).get? i <;> rfl
    constructor
    · intro c' hc'
      have hmem' : c' ∈ σ R.numericCols := List.get?_mem hc'
      have hg : (aggGrowth σ d).get? i = some
          (if sumColsAt d ["receitas"] c' = 0 then 1
            else sumColsAt (aggD2 d) ["receitas"] c' / sumColsAt d ["receitas"] c') := by
        rw [hGrowthEq, List.get?_map, hc']
        rfl
      rw [hfold, hg, Option.elim_some, hsum_d c' hmem', hsum_d2 c' hmem']
    · intro hc'
      have hg : (aggGrowth σ d).get? i = none := by
        rw [hGrowthEq, List.get?_map, hc']
        rfl
      rw [hfold, hg, Option.elim_none]
  refine ⟨?_, ?_, ?_, ?_⟩
  · -- (a) revenue compounding
    intro G hG i c hic
    rw [houtRev] at hG
    cases Option.some.inj hG
    rw [scaleRevenueAggressive_eq_fold,
      foldl_mulColBy_colVals c _ R
        (by rw [enum_eq_enumFrom, map_fst_enum_map]; exact numericCols_nodup hRn),
      enum_eq_enumFrom, find?_enumFrom_map _ _ 0 i c (numericCols_nodup hRn) hic]
    simp only [Nat.zero_add]
  · -- (b) investments
    rw [dget_recalc_ne hagg (by decide) (by decide) (by decide), aggD4]
    have hbase : dget (aggD2 d) "investimentos" =
        (dget d "investimentos").map (scaleFrameNumeric (1 + 25/100)) := by
      rw [aggD2, dget_dmodify_self, dget_dmodify_ne _ _ (by decide)]
    split
    · rw [dget_growthStep_ne _ _ (by decide), dget_growthStep_ne _ _ (by decide),
        dget_growthStep_ne _ _ (by decide), dget_growthStep_ne _ _ (by decide)]
      exact hbase
    · exact hbase
  · -- (c)/(d) variable costs
    intro V hV hVn G hG W hW i c hic
    rw [houtRev] at hG
    cases Option.some.inj hG
    have hD4vc : dget (aggD4 σ d) "custos_variaveis" =
        if R.numericCols = [] then some V
        else some (applyGrowthFrom (80/100) (aggGrowth σ d) V V) := by
      by_cases hLnil : R.numericCols = []
      · rw [aggD4, if_neg (hguard' hLnil), if_pos hLnil, hD2other _ (by decide) (by decide)]
        exact hV
      · rw [aggD4, if_pos (hguard hLnil), if_neg hLnil]
        rw [dget_growthStep_ne _ _ (by decide), dget_growthStep_ne _ _ (by decide),
          dget_growthStep_ne _ _ (by decide), dget_growthStep_self _ _ hV,
          hD2other _ (by decide) (by decide), hV]
        rfl
    have hWd4 : dget out.data "custos_variaveis" = dget (aggD4 σ d) "custos_variaveis" :=
      dget_recalc_ne hagg (by decide) (by decide) (by decide)
    rw [hWd4, hD4vc] at hW
    by_cases hLnil : R.numericCols = []
    · rw [if_pos hLnil] at hW
      cases Option.some.inj hW
      have hσnil : σ R.numericCols = [] := by
        rw [List.eq_nil_iff_forall_not_mem]
        intro a ha
        have := ((hadm R.numericCols).2 a).mp ha
        rw [hLnil] at this
        exact absurd this (List.not_mem_nil a)
      constructor
      · intro c' hc'
        rw [hσnil] at hc'
        simp at hc'
      · intro _
        rfl
    · rw [if_neg hLnil] at hW
      exact hcore (80/100) V W hVn (Option.some.inj hW).symm i c hic
  · -- (e) fixed expenses
    intro fk hfk P hP hPn G hG W hW i c hic
    rw [houtRev] at hG
    cases Option.some.inj hG
    have hfkne1 : fk ≠ "receitas" := by
      rcases (by simpa [FIXED_EXPENSE_CATEGORIES] using hfk :
        fk = "despesas_pessoal" ∨ fk = "despesas_comerciais" ∨
          fk = "despesas_administrativas") with rfl | rfl | rfl <;> decide
    have hfkne2 : fk ≠ "investimentos" := by
      rcases (by simpa [FIXED_EXPENSE_CATEGORIES] using hfk :
        fk = "despesas_pessoal" ∨ fk = "despesas_comerciais" ∨
          fk = "despesas_administrativas") with rfl | rfl | rfl <;> decide
    have hD4fk : dget (aggD4 σ d) fk =
        if R.numericCols = [] then some P
        else some (applyGrowthFrom (50/100) (aggGrowth σ d) P P) := by
      by_cases hLnil : R.numericCols = []
      · rw [aggD4, if_neg (hguard' hLnil), if_pos hLnil, hD2other _ hfkne1 hfkne2]
        exact hP
      · rw [aggD4, if_pos (hguard hLnil), if_neg hLnil]
        rcases (by simpa [FIXED_EXPENSE_CATEGORIES] using hfk :
          fk = "despesas_pessoal" ∨ fk = "despesas_comerciais" ∨
            fk = "despesas_administrativas") with rfl | rfl | rfl
        · rw [dget_growthStep_ne _ _ (by decide), dget_growthStep_ne _ _ (by decide),
            dget_growthStep_self _ _ hP, dget_growthStep_ne _ _ (by decide),
            hD2other _ (by decide) (by decide), hP]
          rfl
        · rw [dget_growthStep_ne _ _ (by decide), dget_growthStep_self _ _ hP,
            dget_growthStep_ne _ _ (by decide), dget_growthStep_ne _ _ (by decide),
            hD2other _ (by decide) (by decide), hP]
          rfl
        · rw [dget_growthStep_self _ _ hP, dget_growthStep_ne _ _ (by decide),
            dget_growthStep_ne _ _ (by decide), dget_growthStep_ne _ _ (by decide),
            hD2other _ (by decide) (by decide), hP]
          rfl
    have hWd4 : dget out.data fk = dget (aggD4 σ d) fk := by
      rcases (by simpa [FIXED_EXPENSE_CATEGORIES] using hfk :
        fk = "despesas_pessoal" ∨ fk = "despesas_comerciais" ∨
          fk = "despesas_administrativas") with rfl | rfl | rfl <;>
        exact dget_recalc_ne hagg (by decide) (by decide) (by decide)
    rw [hWd4, hD4fk] at hW
    by_cases hLnil : R.numericCols = []
    · rw [if_pos hLnil] at hW
      cases Option.some.inj hW
      have hσnil : σ R.numericCols = [] := by
        rw [List.eq_nil_iff_forall_not_mem]
        intro a ha
        have := ((hadm R.numericCols).2 a).mp ha
        rw [hLnil] at this
        exact absurd this (List.not_mem_nil a)
      constructor
      · intro c' hc'
        rw [hσnil] at hc'
        simp at hc'
      · intro _
        rfl
    · rw [if_neg hLnil] at hW
      exact hcore (50/100) P W hPn (Option.some.inj hW).symm i c hic

/-- Two-period revenue table for the aggressive-scenario examples (columns
listed in their given, already sorted, order). -/
def agR : Frame := ⟨1, [("a", Col.num [10]), ("b", Col.num [20])]⟩

/-- Matching variable-costs table. -/
def agV : Frame := ⟨1, [("a", Col.num [100]), ("b", Col.num [100])]⟩

/-- Matching (zero) personnel table. -/
def agP : Frame := ⟨1, [("a", Col.num [0]), ("b", Col.num [0])]⟩

/-- The adjusted revenue table: column 0 ×1.30, column 1 ×1.35. -/
def agR2 : Frame := ⟨1, [("a", Col.num [13]), ("b", Col.num [27])]⟩

/-- The aggressive-example dataset. -/
def dAg : Dataset := [("receitas", agR), ("custos_variaveis", agV), ("despesas_pessoal", agP)]

/-- The adjusted dataset under the sorted set order: costs paired with the
growth of their own column. -/
def dAg4 : Dataset :=
  [("receitas", agR2),
   ("custos_variaveis", ⟨1, [("a", Col.num [124]), ("b", Col.num [128])]⟩),
   ("despesas_pessoal", agP)]

/-- The full output under the sorted set order. -/
def dAgOut : Dataset := dAg4 ++
  [("margem_contribuicao", ⟨1, [("a", Col.num [-111]), ("b", Col.num [-101])]⟩),
   ("fluxo_de_caixa", ⟨1, [("a", Col.num [-111]), ("b", Col.num [-101])]⟩),
   ("saldo_final", ⟨1, [("a", Col.num [-111]), ("b", Col.num [-212])]⟩)]

/-- The adjusted dataset under the reversed set order: the growth entries
are paired crosswise, so column `a` of the costs is scaled by column `b`'s
growth and vice versa. -/
def dAg4R : Dataset :=
  [("receitas", agR2),
   ("custos_variaveis", ⟨1, [("a", Col.num [128]), ("b", Col.num [124])]⟩),
   ("despesas_pessoal", agP)]

/-- The full output under the reversed set order. -/
def dAgOutR : Dataset := dAg4R ++
  [("margem_contribuicao", ⟨1, [("b", Col.num [-97]), ("a", Col.num [-115])]⟩),
   ("fluxo_de_caixa", ⟨1, [("b", Col.num [-97]), ("a", Col.num [-115])]⟩),
   ("saldo_final", ⟨1, [("b", Col.num [-97]), ("a", Col.num [-212])]⟩)]

set_option maxRecDepth 8000 in
theorem aggD4_dAg : aggD4 sigmaSort dAg = dAg4 := by
  simp +decide only [aggD4, aggD2, aggGrowth, growthStep, sumCategoryValues, sumHist,
    sumColsAt, dmodify, dget, dset, scaleRevenueAggressive, mulColBy,
    scaleFrameNumeric, applyGrowthFrom, Frame.setNumCol, setColList,
    Frame.numericCols, Frame.colNames, Frame.colSum, Frame.colVals, colValsList,
    Col.isNum, Col.numVals, List.enum, List.enumFrom, dAg, dAg4, agR, agV, agP, agR2,
    sigmaSort, List.insertionSort, List.orderedInsert, strLE, strKey, keyLE,
    List.dedup, List.map, List.foldl, List.zipWith, List.flatMap, List.length,
    List.append, ite_true, ite_false, if_true, if_false]
  norm_num

set_option maxRecDepth 8000 in
theorem aggD4_dAgR : aggD4 sigmaRev dAg = dAg4R := by
  simp +decide only [aggD4, aggD2, aggGrowth, growthStep, sumCategoryValues, sumHist,
    sumColsAt, dmodify, dget, dset, scaleRevenueAggressive, mulColBy,
    scaleFrameNumeric, applyGrowthFrom, Frame.setNumCol, setColList,
    Frame.numericCols, Frame.colNames, Frame.colSum, Frame.colVals, colValsList,
    Col.isNum, Col.numVals, List.enum, List.enumFrom, dAg, dAg4R, agR, agV, agP, agR2,
    sigmaRev, sigmaSort, List.insertionSort, List.orderedInsert, strLE, strKey, keyLE,
    List.dedup, List.reverse, List.reverseAux, List.map, List.foldl, List.zipWith,
    List.flatMap, List.length, List.append, ite_true, ite_false, if_true, if_false]
  norm_num

set_option maxRecDepth 8000 in
theorem recalc_dAg4 : recalculateDerivedValues sigmaSort tauSort dAg4 = some dAgOut := by
  simp +decide only [recalculateDerivedValues, findCommonNumericColumns,
    createOrGetDataframe, sumCategoryValues, sumHist, sumColsAt, Frame.numericCols,
    Frame.colNames, Frame.colSum, Frame.colVals, colValsList, Col.isNum, Col.numVals,
    Frame.isEmptyF, npSub, npCumsum, cumsumFrom, updateDataframeWithValues, padTrim,
    setScalarCol, Frame.setNumCol, setColList, sigmaSort, tauSort,
    List.insertionSort, List.orderedInsert, strLE, strKey, keyLE, List.dedup, dAg4,
    dAgOut, agR2, agP, REVENUE_CATEGORIES, VARIABLE_COST_CATEGORIES,
    FIXED_EXPENSE_CATEGORIES, dget, dset, List.filter, List.map, List.foldl,
    List.zip, List.zipWith, List.take, List.replicate, List.flatMap, List.isEmpty,
    List.any, List.all, List.elem, List.length, List.append, ite_true, ite_false,
    if_true, if_false]
  norm_num

set_option maxRecDepth 8000 in
theorem recalc_dAg4R : recalculateDerivedValues sigmaRev tauRev dAg4R = some dAgOutR := by
  simp +decide only [recalculateDerivedValues, findCommonNumericColumns,
    createOrGetDataframe, sumCategoryValues, sumHist, sumColsAt, Frame.numericCols,
    Frame.colNames, Frame.colSum, Frame.colVals, colValsList, Col.isNum, Col.numVals,
    Frame.isEmptyF, npSub, npCumsum, cumsumFrom, updateDataframeWithValues, padTrim,
    setScalarCol, Frame.setNumCol, setColList, sigmaRev, tauRev, sigmaSort, tauSort,
    List.insertionSort, List.orderedInsert, strLE, strKey, keyLE, List.dedup,
    List.reverse, List.reverseAux, dAg4R, dAgOutR, agR2, agP, REVENUE_CATEGORIES,
    VARIABLE_COST_CATEGORIES, FIXED_EXPENSE_CATEGORIES, dget, dset, List.filter,
    List.map, List.foldl, List.zip, List.zipWith, List.take, List.replicate,
    List.flatMap, List.isEmpty, List.any, List.all, List.elem, List.length,
    List.append, ite_true, ite_false, if_true, if_false]
  norm_num

set_option maxRecDepth 8000 in
theorem genAgg_dAg : generateScenario sigmaSort tauSort dAg "agressivo" none =
    .ok ⟨"agressivo", dAgOut, ⟨40, 252, 0, -212, -212, -323, -530, 0⟩⟩ := by
  have h1 : generateAggressiveScenario sigmaSort tauSort dAg none = some dAgOut := by
    rw [aggressive_unfold, aggD4_dAg, recalc_dAg4]
  have h2 : generateScenario sigmaSort tauSort dAg "agressivo" none =
      .ok ⟨"agressivo", dAgOut, calculateScenarioMetrics dAgOut⟩ := by
    simp +decide only [generateScenario, h1, if_true, if_false, ite_true, ite_false]
  rw [h2]
  simp +decide only [calculateScenarioMetrics, groupGrandSum, catGrandSum,
    finalBalanceMetric, Frame.grandSum, Col.isNum, Col.numVals, dget, dAgOut, dAg4,
    agR2, agP, REVENUE_CATEGORIES, VARIABLE_COST_CATEGORIES,
    FIXED_EXPENSE_CATEGORIES, INVESTMENT_CATEGORIES, List.filter, List.map,
    List.append, List.getLast?, Option.getD, GenResponse.mk.injEq, Metrics.mk.injEq,
    Except.ok.injEq]
  norm_num

set_option maxRecDepth 8000 in
theorem genAgg_dAgR : generateScenario sigmaRev tauRev dAg "agressivo" none =
    .ok ⟨"agressivo", dAgOutR, ⟨40, 252, 0, -212, -212, -309, -530, 0⟩⟩ := by
  have h1 : generateAggressiveScenario sigmaRev tauRev dAg none = some dAgOutR := by
    rw [aggressive_unfold, aggD4_dAgR, recalc_dAg4R]
  have h2 : generateScenario sigmaRev tauRev dAg "agressivo" none =
      .ok ⟨"agressivo", dAgOutR, calculateScenarioMetrics dAgOutR⟩ := by
    simp +decide only [generateScenario, h1, if_true, if_false, ite_true, ite_false]
  rw [h2]
  simp +decide only [calculateScenarioMetrics, groupGrandSum, catGrandSum,
    finalBalanceMetric, Frame.grandSum, Col.isNum, Col.numVals, dget, dAgOutR, dAg4R,
    agR2, agP, REVENUE_CATEGORIES, VARIABLE_COST_CATEGORIES,
    FIXED_EXPENSE_CATEGORIES, INVESTMENT_CATEGORIES, List.filter, List.map,
    List.append, List.getLast?, Option.getD, GenResponse.mk.injEq, Metrics.mk.injEq,
    Except.ok.injEq]
  norm_num

/-- C3 counterexample: under the (admissible) reversed set-iteration
order, variable-cost column `a` is multiplied by `1+(g_b−1)*0.8 = 1.28`
(the growth of column `b`), not by `1+(g_a−1)*0.8 = 1.24` as the claim's
per-column pairing requires: the output holds 128 where the claim demands
124. -/
theorem claim_C3_counterexample :
    SetOrdAdm sigmaRev
    ∧ InterOrdAdm tauRev
    ∧ generateScenario sigmaRev tauRev dAg "agressivo" none =
        .ok ⟨"agressivo", dAgOutR, ⟨40, 252, 0, -212, -212, -309, -530, 0⟩⟩
    ∧ dget dAgOutR "receitas" = some agR2
    ∧ dget dAgOutR "custos_variaveis" = some ⟨1, [("a", Col.num [128]), ("b", Col.num [124])]⟩
    ∧ agR2.colSum "a" / agR.colSum "a" = 13/10
    ∧ (100 : ℚ) * (1 + (13/10 - 1) * (80/100)) = 124
    ∧ Frame.colVals ⟨1, [("a", Col.num [128]), ("b", Col.num [124])]⟩ "a" = [128]
    ∧ (128 : ℚ) ≠ 124 := by
  refine ⟨sigmaRevAdm, tauRevAdm, genAgg_dAgR, by decide, by decide, ?_, by norm_num,
    by decide, by norm_num⟩
  rw [show agR2.colSum "a" = 13 from by
      norm_num [agR2, Frame.colSum, Frame.colVals, colValsList, Col.numVals],
    show agR.colSum "a" = 10 from by
      norm_num [agR, Frame.colSum, Frame.colVals, colValsList, Col.numVals]]

/-- C3 witness (for the amended claim), under the sorted set-iteration
order which here coincides with the given column order: revenue column 1
is ×1.35, and variable-cost column 0 is scaled by its own column's
realized growth ratio 13/10, giving 124. -/
theorem claim_C3_witness :
    (Frame.colVals agR2 "b" =
      (Frame.colVals agR "b").map (· * (1 + 30/100 + ((1 : ℕ) : ℚ) * (5/100))))
    ∧ (Frame.colVals (⟨1, [("a", Col.num [124]), ("b", Col.num [128])]⟩ : Frame) "a" =
      (Frame.colVals agV "a").map (· *
        (1 + ((if agR.colSum "a" = 0 then 1 else agR2.colSum "a" / agR.colSum "a") - 1)
          * (80/100)))) := by
  have h := claim_C3 sigmaSort tauSort sigmaSortAdm dAg
    ⟨"agressivo", dAgOut, ⟨40, 252, 0, -212, -212, -323, -530, 0⟩⟩ genAgg_dAg
    agR (by decide) (by decide)
  refine ⟨h.1 agR2 (by decide) 1 "b" (by decide), ?_⟩
  exact (h.2.2.1 agV (by decide) (by decide) agR2 (by decide)
    ⟨1, [("a", Col.num [124]), ("b", Col.num [128])]⟩ (by decide) 0 "a" (by decide)).1
    "a" (by decide)

/-! ## C2 — cumulative balance is taken in set-iteration order, not the
given column order -/

/-- Two chronological periods, given in the order `Jan`, `Fev`. -/
def dC2 : Dataset :=
  [("receitas", ⟨1, [("Jan", Col.num [10]), ("Fev", Col.num [20])]⟩),
   ("custos_variaveis", ⟨1, [("Jan", Col.num [1]), ("Fev", Col.num [2])]⟩),
   ("despesas_pessoal", ⟨1, [("Jan", Col.num [3]), ("Fev", Col.num [4])]⟩)]

/-- The realistic output on `dC2` under the sorted set order, which lists
`Fev` before `Jan`: the cumulative sum is accumulated in that order. -/
def dC2out : Dataset := dC2 ++
  [("margem_contribuicao", ⟨1, [("Fev", Col.num [18]), ("Jan", Col.num [9])]⟩),
   ("fluxo_de_caixa", ⟨1, [("Fev", Col.num [14]), ("Jan", Col.num [6])]⟩),
   ("saldo_final", ⟨1, [("Fev", Col.num [14]), ("Jan", Col.num [20])]⟩)]

set_option maxRecDepth 8000 in
theorem genReal_dC2 : generateScenario sigmaSort tauSort dC2 "realista" none =
    .ok ⟨"realista", dC2out, ⟨30, 3, 7, 27, 20, 34, 90, 0⟩⟩ := by
  have h1 : recalculateDerivedValues sigmaSort tauSort dC2 = some dC2out := by
    simp +decide only [recalculateDerivedValues, findCommonNumericColumns,
      createOrGetDataframe, sumCategoryValues, sumHist, sumColsAt, Frame.numericCols,
      Frame.colNames, Frame.colSum, Frame.colVals, colValsList, Col.isNum, Col.numVals,
      Frame.isEmptyF, npSub, npCumsum, cumsumFrom, updateDataframeWithValues, padTrim,
      setScalarCol, Frame.setNumCol, setColList, sigmaSort, tauSort,
      List.insertionSort, List.orderedInsert, strLE, strKey, keyLE, List.dedup, dC2,
      dC2out, REVENUE_CATEGORIES, VARIABLE_COST_CATEGORIES, FIXED_EXPENSE_CATEGORIES,
      dget, dset, List.filter, List.map, List.foldl, List.zip, List.zipWith, List.take,
      List.replicate, List.flatMap, List.isEmpty, List.any, List.all, List.elem,
      List.length, List.append, ite_true, ite_false, if_true, if_false]
    norm_num
  have h2 : generateScenario sigmaSort tauSort dC2 "realista" none =
      .ok ⟨"realista", dC2out, calculateScenarioMetrics dC2out⟩ := by
    simp +decide only [generateScenario, generateRealisticScenario, h1, if_true,
      if_false, ite_true, ite_false]
  rw [h2]
  simp +decide only [calculateScenarioMetrics, groupGrandSum, catGrandSum,
    finalBalanceMetric, Frame.grandSum, Col.isNum, Col.numVals, dget, dC2out, dC2,
    REVENUE_CATEGORIES, VARIABLE_COST_CATEGORIES, FIXED_EXPENSE_CATEGORIES,
    INVESTMENT_CATEGORIES, List.filter, List.map, List.append, List.getLast?,
    Option.getD, GenResponse.mk.injEq, Metrics.mk.injEq, Except.ok.injEq]
  norm_num

/-- C2 evaluated at the failing input: with columns given in the order
`Jan`, `Fev` (chronological) and the — admissible — sorted set-iteration
order, which lists `Fev` first, `np.cumsum` accumulates `Fev` before
`Jan`, and the accumulated totals are assigned in that same scrambled
order: the balance at the first given column `Jan` is 20, the whole-year
total, instead of the claimed prefix sum `cash_flow.Jan = 6` (and balance
at `Fev` is 14 instead of 20).  The spec's chronological reading of the
cumulative balance is the evident intent; the code loses the column order
by listing a Python `set`. -/
theorem claim_C2 :
    SetOrdAdm sigmaSort
    ∧ InterOrdAdm tauSort
    ∧ generateScenario sigmaSort tauSort dC2 "realista" none =
        .ok ⟨"realista", dC2out, ⟨30, 3, 7, 27, 20, 34, 90, 0⟩⟩
    ∧ dget dC2out "fluxo_de_caixa" = some ⟨1, [("Fev", Col.num [14]), ("Jan", Col.num [6])]⟩
    ∧ dget dC2out "saldo_final" = some ⟨1, [("Fev", Col.num [14]), ("Jan", Col.num [20])]⟩
    ∧ Frame.colSum ⟨1, [("Fev", Col.num [14]), ("Jan", Col.num [20])]⟩ "Jan" = 20
    ∧ Frame.colSum ⟨1, [("Fev", Col.num [14]), ("Jan", Col.num [6])]⟩ "Jan" = 6
    ∧ (20 : ℚ) ≠ 6 := by
  refine ⟨sigmaSortAdm, tauSortAdm, genReal_dC2, by decide, by decide, ?_, ?_, by norm_num⟩
  · simp +decide only [Frame.colSum, Frame.colVals, colValsList, Col.numVals,
      if_true, if_false, ite_true, ite_false]
    norm_num
  · simp +decide only [Frame.colSum, Frame.colVals, colValsList, Col.numVals,
      if_true, if_false, ite_true, ite_false]
    norm_num

/-! ## C1 — per-column derived identities -/

theorem padTrim_self (vals : List ℚ) : padTrim vals vals.length = vals := by
  rw [padTrim, List.take_length, Nat.sub_self, List.replicate_zero, List.append_nil]

theorem nrows_setScalarCol (f : Frame) (c : String) (v : ℚ) :
    (setScalarCol f c v).nrows = f.nrows := by
  rw [setScalarCol]
  split <;> rfl

theorem colVals_setScalarCol_self (f : Frame) (c : String) (v : ℚ) :
    (setScalarCol f c v).colVals c =
      List.replicate f.nrows (if 1 < f.nrows then v / f.nrows else v) := by
  rw [setScalarCol]
  split <;> rw [colVals_setNumCol_self]

theorem colVals_setScalarCol_ne (f : Frame) {c' c : String} (v : ℚ) (h : c' ≠ c) :
    (setScalarCol f c' v).colVals c = f.colVals c := by
  rw [setScalarCol]
  split <;> exact colVals_setNumCol_ne _ _ h

theorem foldl_setScalarCol_colVals (c : String) (ps : List (String × ℚ)) :
    ∀ f : Frame, (ps.map Prod.fst).Nodup →
      (ps.foldl (fun acc e => setScalarCol acc e.1 e.2) f).colVals c =
        match ps.find? (fun e => decide (e.1 = c)) with
        | some e => List.replicate f.nrows (if 1 < f.nrows then e.2 / f.nrows else e.2)
        | none => f.colVals c := by
  induction ps with
  | nil => intro f _; rfl
  | cons e ps' ih =>
    intro f hnd
    rw [List.map_cons, List.nodup_cons] at hnd
    rw [List.foldl_cons, ih _ hnd.2]
    by_cases h : e.1 = c
    · have hc : c ∉ ps'.map Prod.fst := h ▸ hnd.1
      have hfind : ps'.find? (fun e' => decide (e'.1 = c)) = none := by
        rw [List.find?_eq_none]
        intro a ha
        simp only [decide_eq_true_eq]
        exact fun hac => hc (hac ▸ List.mem_map_of_mem Prod.fst ha)
      rw [hfind, List.find?_cons_of_pos _ (by simp [h])]
      rw [nrows_setScalarCol, show e.1 = c from h, colVals_setScalarCol_self]
    · rw [List.find?_cons_of_neg _ (by simp [h])]
      have hne := colVals_setScalarCol_ne f e.2 h
      cases hfind : ps'.find? (fun e' => decide (e'.1 = c)) with
      | some e' => rw [nrows_setScalarCol, hne]
      | none => rw [hne]

theorem zip_self_map (v : String → ℚ) (cols : List String) :
    cols.zip (cols.map v) = cols.map (fun c' => (c', v c')) := by
  induction cols with
  | nil => rfl
  | cons x rest ih => simp [ih]

theorem map_fst_pair_map (v : String → ℚ) (cols : List String) :
    (cols.map (fun c' => (c', v c'))).map Prod.fst = cols := by
  induction cols with
  | nil => rfl
  | cons x rest ih => simp [ih]

theorem find?_pair_map (v : String → ℚ) (cols : List String) (c : String)
    (hc : c ∈ cols) :
    (cols.map (fun c' => (c', v c'))).find? (fun e => decide (e.1 = c)) =
      some (c, v c) := by
  induction cols with
  | nil => simp at hc
  | cons x rest ih =>
    by_cases h : x = c
    · subst h
      rw [List.map_cons, List.find?_cons_of_pos _ (by simp)]
    · rcases List.mem_cons.mp hc with rfl | hc'
      · exact absurd rfl h
      · rw [List.map_cons, List.find?_cons_of_neg _ (by simp [h]), ih hc']

theorem sum_replicate_scalar (n : ℕ) (hn : n ≠ 0) (x : ℚ) :
    (List.replicate n (if 1 < n then x / n else x)).sum = x := by
  rw [List.sum_replicate]
  by_cases h : 1 < n
  · rw [if_pos h, nsmul_eq_mul]
    have : (n : ℚ) ≠ 0 := Nat.cast_ne_zero.mpr hn
    field_simp
  · have h1 : n = 1 := by omega
    subst h1
    simp

/-- After `_update_dataframe_with_values` with values indexed by the same
duplicate-free column list, each written column sums back to its value
(the scalar is split evenly over the rows when there are several). -/
theorem colSum_updateDf (T : Frame) (hT : T.nrows ≠ 0) (cols : List String)
    (hnd : cols.Nodup) (v : String → ℚ) :
    ∀ c ∈ cols, (updateDataframeWithValues T cols (cols.map v)).colSum c = v c := by
  intro c hc
  have hne : cols ≠ [] := List.ne_nil_of_mem hc
  rw [updateDataframeWithValues,
    if_neg (by simp [List.isEmpty_iff, hne]),
    show padTrim (cols.map v) cols.length = cols.map v from by
      rw [← List.length_map cols v]; exact padTrim_self _,
    zip_self_map v cols]
  rw [Frame.colSum, foldl_setScalarCol_colVals c _ T (by rw [map_fst_pair_map]; exact hnd),
    find?_pair_map v cols c hc]
  exact sum_replicate_scalar T.nrows hT (v c)

theorem zipWith_sub_map_map (f g : String → ℚ) (l : List String) :
    List.zipWith (· - ·) (l.map f) (l.map g) = l.map fun x => f x - g x := by
  induction l with
  | nil => rfl
  | cons x rest ih => simp [ih]

theorem npSub_map_map (f g : String → ℚ) (l : List String) :
    npSub (l.map f) (l.map g) = some (l.map fun x => f x - g x) := by
  rw [npSub, if_pos (by rw [List.length_map, List.length_map]), zipWith_sub_map_map]

/-- Unfolding of the recalculation once both numpy subtractions are known
to succeed. -/
theorem recalc_eq (σ : SetOrd) (τ : InterOrd) (d : Dataset) (cm cf : List ℚ)
    (h1 : npSub (sumCategoryValues σ d REVENUE_CATEGORIES).2
      (sumCategoryValues σ d VARIABLE_COST_CATEGORIES).2 = some cm)
    (h2 : npSub cm (sumCategoryValues σ d FIXED_EXPENSE_CATEGORIES).2 = some cf) :
    recalculateDerivedValues σ τ d = some (dset (dset (dset d
      "margem_contribuicao" (updateDataframeWithValues
        (createOrGetDataframe d "margem_contribuicao")
        (findCommonNumericColumns τ d) cm))
      "fluxo_de_caixa" (updateDataframeWithValues
        (createOrGetDataframe d "fluxo_de_caixa")
        (findCommonNumericColumns τ d) cf))
      "saldo_final" (updateDataframeWithValues
        (createOrGetDataframe d "saldo_final")
        (findCommonNumericColumns τ d) (npCumsum cf))) := by
  simp only [recalculateDerivedValues, h1, h2]

theorem nrows_ne_zero_of_isEmptyF_false {f : Frame} (h : f.isEmptyF = false) :
    f.nrows ≠ 0 := by
  intro h0
  rw [Frame.isEmptyF, h0] at h
  simp at h

theorem isEmptyF_eq_of_shape {f g : Frame} (hn : f.colNames = g.colNames)
    (hr : f.nrows = g.nrows) : f.isEmptyF = g.isEmptyF := by
  have h1 : ∀ w : Frame, w.cols.isEmpty = w.colNames.isEmpty := by
    intro w
    rw [Frame.colNames]
    cases w.cols <;> rfl
  rw [Frame.isEmptyF, Frame.isEmptyF, hr, h1, h1, hn]

theorem isEmptyF_scaleFrameNumeric (k : ℚ) (f : Frame) :
    (scaleFrameNumeric k f).isEmptyF = f.isEmptyF :=
  isEmptyF_eq_of_shape (shape_scaleFrameNumeric k f).1 (shape_scaleFrameNumeric k f).2.2

/-- The fully-populated dataset shape of the generator: one table per base
category, in the canonical key order. -/
def sixCats (R V P Cm Ad I : Frame) : Dataset :=
  [("receitas", R), ("custos_variaveis", V), ("despesas_pessoal", P),
   ("despesas_comerciais", Cm), ("despesas_administrativas", Ad),
   ("investimentos", I)]

theorem dget_sixCats_receitas (R V P Cm Ad I : Frame) :
    dget (sixCats R V P Cm Ad I) "receitas" = some R := by
  simp +decide only [sixCats, dget, ite_true, ite_false]

theorem dget_sixCats_vc (R V P Cm Ad I : Frame) :
    dget (sixCats R V P Cm Ad I) "custos_variaveis" = some V := by
  simp +decide only [sixCats, dget, ite_true, ite_false]

theorem dget_sixCats_pes (R V P Cm Ad I : Frame) :
    dget (sixCats R V P Cm Ad I) "despesas_pessoal" = some P := by
  simp +decide only [sixCats, dget, ite_true, ite_false]

theorem dget_sixCats_com (R V P Cm Ad I : Frame) :
    dget (sixCats R V P Cm Ad I) "despesas_comerciais" = some Cm := by
  simp +decide only [sixCats, dget, ite_true, ite_false]

theorem dget_sixCats_adm (R V P Cm Ad I : Frame) :
    dget (sixCats R V P Cm Ad I) "despesas_administrativas" = some Ad := by
  simp +decide only [sixCats, dget, ite_true, ite_false]

theorem dget_sixCats_none (R V P Cm Ad I : Frame) {k : String}
    (h1 : k ≠ "receitas") (h2 : k ≠ "custos_variaveis")
    (h3 : k ≠ "despesas_pessoal") (h4 : k ≠ "despesas_comerciais")
    (h5 : k ≠ "despesas_administrativas") (h6 : k ≠ "investimentos") :
    dget (sixCats R V P Cm Ad I) k = none := by
  simp only [sixCats, dget, if_neg (Ne.symm h1), if_neg (Ne.symm h2),
    if_neg (Ne.symm h3), if_neg (Ne.symm h4), if_neg (Ne.symm h5),
    if_neg (Ne.symm h6)]

theorem sumHist_sixCats_rev (R V P Cm Ad I : Frame) :
    sumHist (sixCats R V P Cm Ad I) REVENUE_CATEGORIES = R.numericCols := by
  simp +decide only [sumHist, REVENUE_CATEGORIES, List.flatMap_cons,
    List.flatMap_nil, List.append_nil, dget_sixCats_receitas]

theorem sumHist_sixCats_vc (R V P Cm Ad I : Frame) :
    sumHist (sixCats R V P Cm Ad I) VARIABLE_COST_CATEGORIES = V.numericCols := by
  simp +decide only [sumHist, VARIABLE_COST_CATEGORIES, List.flatMap_cons,
    List.flatMap_nil, List.append_nil, dget_sixCats_vc]

theorem sumHist_sixCats_fixed (R V P Cm Ad I : Frame) :
    sumHist (sixCats R V P Cm Ad I) FIXED_EXPENSE_CATEGORIES =
      P.numericCols ++ (Cm.numericCols ++ Ad.numericCols) := by
  simp +decide only [sumHist, FIXED_EXPENSE_CATEGORIES, List.flatMap_cons,
    List.flatMap_nil, List.append_nil, dget_sixCats_pes, dget_sixCats_com,
    dget_sixCats_adm]

theorem sumCat_snd (σ : SetOrd) (d : Dataset) (cats : List String) :
    (sumCategoryValues σ d cats).2 = (σ (sumHist d cats)).map (sumColsAt d cats) :=
  rfl

theorem common_sixCats (τ : InterOrd) {R V P Cm Ad I : Frame} {L : List String}
    (hR : R.numericCols = L) (hV : V.numericCols = L) (hP : P.numericCols = L)
    (hCm : Cm.numericCols = L) (hAd : Ad.numericCols = L) (hI : I.numericCols = L)
    (heR : R.isEmptyF = false) (heV : V.isEmptyF = false) (heP : P.isEmptyF = false)
    (heCm : Cm.isEmptyF = false) (heAd : Ad.isEmptyF = false)
    (heI : I.isEmptyF = false) :
    findCommonNumericColumns τ (sixCats R V P Cm Ad I) = τ [L, L, L, L, L, L] := by
  simp +decide only [findCommonNumericColumns, sixCats, List.filter_cons,
    List.filter_nil, heR, heV, heP, heCm, heAd, heI, Bool.not_false, if_true,
    ite_true, List.isEmpty_cons, if_false, ite_false, List.map_cons, List.map_nil,
    hR, hV, hP, hCm, hAd, hI]

theorem sumColsAt_rev {d : Dataset} {R : Frame} (h : dget d "receitas" = some R)
    {c : String} (hc : c ∈ R.colNames) :
    sumColsAt d REVENUE_CATEGORIES c = R.colSum c := by
  simp only [sumColsAt, REVENUE_CATEGORIES, List.map_cons, List.map_nil,
    List.sum_cons, List.sum_nil, add_zero, h, if_pos hc]

theorem sumColsAt_vc {d : Dataset} {V : Frame}
    (h : dget d "custos_variaveis" = some V) {c : String} (hc : c ∈ V.colNames) :
    sumColsAt d VARIABLE_COST_CATEGORIES c = V.colSum c := by
  simp only [sumColsAt, VARIABLE_COST_CATEGORIES, List.map_cons, List.map_nil,
    List.sum_cons, List.sum_nil, add_zero, h, if_pos hc]

theorem sumColsAt_fixed {d : Dataset} {P Cm Ad : Frame}
    (h1 : dget d "despesas_pessoal" = some P)
    (h2 : dget d "despesas_comerciais" = some Cm)
    (h3 : dget d "despesas_administrativas" = some Ad)
    {c : String} (hcP : c ∈ P.colNames) (hcCm : c ∈ Cm.colNames)
    (hcAd : c ∈ Ad.colNames) :
    sumColsAt d FIXED_EXPENSE_CATEGORIES c =
      P.colSum c + Cm.colSum c + Ad.colSum c := by
  simp only [sumColsAt, FIXED_EXPENSE_CATEGORIES, List.map_cons, List.map_nil,
    List.sum_cons, List.sum_nil, add_zero, h1, h2, h3, if_pos hcP, if_pos hcCm,
    if_pos hcAd]
  ring

theorem createOrGet_sixCats_nokey {R : Frame} {V P Cm Ad I : Frame} {k : String}
    (hd : dget (sixCats R V P Cm Ad I) k = none) (heR : R.isEmptyF = false) :
    createOrGetDataframe (sixCats R V P Cm Ad I) k =
      ⟨R.nrows, R.cols.filter fun col => !col.2.isNum⟩ := by
  have hf : (sixCats R V P Cm Ad I).find? (fun e => !e.2.isEmptyF) =
      some ("receitas", R) :=
    List.find?_cons_of_pos _ (by simp [heR])
  simp only [createOrGetDataframe, hd, hf]

/-- The heart of C1: on a fully-populated dataset whose six category
tables share the same (duplicate-free-by-oracle) numeric columns, and
whose sum- and intersection-iteration orders agree, the recalculation
succeeds and the derived margin and cash-flow tables satisfy the
per-column identities against the six input tables. -/
theorem recalcIdentity (σ : SetOrd) (τ : InterOrd) (R V P Cm Ad I : Frame)
    (L : List String)
    (hadm : SetOrdAdm σ)
    (hext : ∀ xs ys, (∀ a, a ∈ xs ↔ a ∈ ys) → σ xs = σ ys)
    (hτ : τ [L, L, L, L, L, L] = σ L)
    (hR : R.numericCols = L) (hV : V.numericCols = L) (hP : P.numericCols = L)
    (hCm : Cm.numericCols = L) (hAd : Ad.numericCols = L) (hI : I.numericCols = L)
    (heR : R.isEmptyF = false) (heV : V.isEmptyF = false) (heP : P.isEmptyF = false)
    (heCm : Cm.isEmptyF = false) (heAd : Ad.isEmptyF = false)
    (heI : I.isEmptyF = false) :
    ∃ out, recalculateDerivedValues σ τ (sixCats R V P Cm Ad I) = some out ∧
      ∀ M Cf : Frame, dget out "margem_contribuicao" = some M →
        dget out "fluxo_de_caixa" = some Cf →
        ∀ c ∈ σ L,
          M.colSum c = R.colSum c - V.colSum c ∧
          Cf.colSum c = M.colSum c - (P.colSum c + Cm.colSum c + Ad.colSum c) := by
  have hrev : (sumCategoryValues σ (sixCats R V P Cm Ad I) REVENUE_CATEGORIES).2 =
      (σ L).map (sumColsAt (sixCats R V P Cm Ad I) REVENUE_CATEGORIES) := by
    rw [sumCat_snd, sumHist_sixCats_rev, hR]
  have hvc : (sumCategoryValues σ (sixCats R V P Cm Ad I)
      VARIABLE_COST_CATEGORIES).2 =
      (σ L).map (sumColsAt (sixCats R V P Cm Ad I) VARIABLE_COST_CATEGORIES) := by
    rw [sumCat_snd, sumHist_sixCats_vc, hV]
  have hfxs : (sumCategoryValues σ (sixCats R V P Cm Ad I)
      FIXED_EXPENSE_CATEGORIES).2 =
      (σ L).map (sumColsAt (sixCats R V P Cm Ad I) FIXED_EXPENSE_CATEGORIES) := by
    rw [sumCat_snd, sumHist_sixCats_fixed, hP, hCm, hAd,
      hext (L ++ (L ++ L)) L (by intro a; simp)]
  have h1 : npSub (sumCategoryValues σ (sixCats R V P Cm Ad I)
        REVENUE_CATEGORIES).2
      (sumCategoryValues σ (sixCats R V P Cm Ad I) VARIABLE_COST_CATEGORIES).2 =
      some ((σ L).map fun x =>
        sumColsAt (sixCats R V P Cm Ad I) REVENUE_CATEGORIES x -
        sumColsAt (sixCats R V P Cm Ad I) VARIABLE_COST_CATEGORIES x) := by
    rw [hrev, hvc, npSub_map_map]
  have h2 : npSub ((σ L).map fun x =>
        sumColsAt (sixCats R V P Cm Ad I) REVENUE_CATEGORIES x -
        sumColsAt (sixCats R V P Cm Ad I) VARIABLE_COST_CATEGORIES x)
      (sumCategoryValues σ (sixCats R V P Cm Ad I) FIXED_EXPENSE_CATEGORIES).2 =
      some ((σ L).map fun x =>
        (sumColsAt (sixCats R V P Cm Ad I) REVENUE_CATEGORIES x -
         sumColsAt (sixCats R V P Cm Ad I) VARIABLE_COST_CATEGORIES x) -
        sumColsAt (sixCats R V P Cm Ad I) FIXED_EXPENSE_CATEGORIES x) := by
    rw [hfxs, npSub_map_map]
  have hout := recalc_eq σ τ (sixCats R V P Cm Ad I) _ _ h1 h2
  refine ⟨_, hout, ?_⟩
  intro M Cf hM hCf c hc
  have hcL : c ∈ L := ((hadm L).2 c).mp hc
  have hcommon : findCommonNumericColumns τ (sixCats R V P Cm Ad I) = σ L :=
    (common_sixCats τ hR hV hP hCm hAd hI heR heV heP heCm heAd heI).trans hτ
  have hdm : dget (sixCats R V P Cm Ad I) "margem_contribuicao" = none :=
    dget_sixCats_none R V P Cm Ad I (by decide) (by decide) (by decide) (by decide)
      (by decide) (by decide)
  have hdc : dget (sixCats R V P Cm Ad I) "fluxo_de_caixa" = none :=
    dget_sixCats_none R V P Cm Ad I (by decide) (by decide) (by decide) (by decide)
      (by decide) (by decide)
  have hnrm : (createOrGetDataframe (sixCats R V P Cm Ad I)
      "margem_contribuicao").nrows ≠ 0 := by
    rw [createOrGet_sixCats_nokey hdm heR]
    show R.nrows ≠ 0
    exact nrows_ne_zero_of_isEmptyF_false heR
  have hnrc : (createOrGetDataframe (sixCats R V P Cm Ad I)
      "fluxo_de_caixa").nrows ≠ 0 := by
    rw [createOrGet_sixCats_nokey hdc heR]
    show R.nrows ≠ 0
    exact nrows_ne_zero_of_isEmptyF_false heR
  have hMd : M = updateDataframeWithValues
      (createOrGetDataframe (sixCats R V P Cm Ad I) "margem_contribuicao")
      (findCommonNumericColumns τ (sixCats R V P Cm Ad I))
      ((σ L).map fun x =>
        sumColsAt (sixCats R V P Cm Ad I) REVENUE_CATEGORIES x -
        sumColsAt (sixCats R V P Cm Ad I) VARIABLE_COST_CATEGORIES x) := by
    rw [dget_dset_ne _ _ (by decide), dget_dset_ne _ _ (by decide),
      dget_dset_self] at hM
    exact (Option.some.inj hM).symm
  have hCfd : Cf = updateDataframeWithValues
      (createOrGetDataframe (sixCats R V P Cm Ad I) "fluxo_de_caixa")
      (findCommonNumericColumns τ (sixCats R V P Cm Ad I))
      ((σ L).map fun x =>
        (sumColsAt (sixCats R V P Cm Ad I) REVENUE_CATEGORIES x -
         sumColsAt (sixCats R V P Cm Ad I) VARIABLE_COST_CATEGORIES x) -
        sumColsAt (sixCats R V P Cm Ad I) FIXED_EXPENSE_CATEGORIES x) := by
    rw [dget_dset_ne _ _ (by decide), dget_dset_self] at hCf
    exact (Option.some.inj hCf).symm
  have hMsum : M.colSum c =
      sumColsAt (sixCats R V P Cm Ad I) REVENUE_CATEGORIES c -
      sumColsAt (sixCats R V P Cm Ad I) VARIABLE_COST_CATEGORIES c := by
    rw [hMd, hcommon]
    exact colSum_updateDf _ hnrm (σ L) (hadm L).1 _ c hc
  have hCfsum : Cf.colSum c =
      (sumColsAt (sixCats R V P Cm Ad I) REVENUE_CATEGORIES c -
       sumColsAt (sixCats R V P Cm Ad I) VARIABLE_COST_CATEGORIES c) -
      sumColsAt (sixCats R V P Cm Ad I) FIXED_EXPENSE_CATEGORIES c := by
    rw [hCfd, hcommon]
    exact colSum_updateDf _ hnrc (σ L) (hadm L).1 _ c hc
  have e1 : sumColsAt (sixCats R V P Cm Ad I) REVENUE_CATEGORIES c = R.colSum c :=
    sumColsAt_rev (dget_sixCats_receitas R V P Cm Ad I)
      (mem_colNames_of_mem_numericCols (hR ▸ hcL))
  have e2 : sumColsAt (sixCats R V P Cm Ad I) VARIABLE_COST_CATEGORIES c =
      V.colSum c :=
    sumColsAt_vc (dget_sixCats_vc R V P Cm Ad I)
      (mem_colNames_of_mem_numericCols (hV ▸ hcL))
  have e3 : sumColsAt (sixCats R V P Cm Ad I) FIXED_EXPENSE_CATEGORIES c =
      P.colSum c + Cm.colSum c + Ad.colSum c :=
    sumColsAt_fixed (dget_sixCats_pes R V P Cm Ad I)
      (dget_sixCats_com R V P Cm Ad I) (dget_sixCats_adm R V P Cm Ad I)
      (mem_colNames_of_mem_numericCols (hP ▸ hcL))
      (mem_colNames_of_mem_numericCols (hCm ▸ hcL))
      (mem_colNames_of_mem_numericCols (hAd ▸ hcL))
  refine ⟨by rw [hMsum, e1, e2], ?_⟩
  rw [hCfsum, hMsum, e3]

/-- Wrapper of `recalcIdentity` phrased against the output dataset's own
tables: whatever the (already adjusted) six base tables are, the derived
margin and cash-flow tables of the recalculated dataset satisfy the
per-column identities against the output's base tables. -/
theorem scenarioIdentity (σ : SetOrd) (τ : InterOrd) (R V P Cm Ad I : Frame)
    (L : List String) (sd : Dataset)
    (hadm : SetOrdAdm σ)
    (hext : ∀ xs ys, (∀ a, a ∈ xs ↔ a ∈ ys) → σ xs = σ ys)
    (hτ : τ [L, L, L, L, L, L] = σ L)
    (hR : R.numericCols = L) (hV : V.numericCols = L) (hP : P.numericCols = L)
    (hCm : Cm.numericCols = L) (hAd : Ad.numericCols = L) (hI : I.numericCols = L)
    (heR : R.isEmptyF = false) (heV : V.isEmptyF = false) (heP : P.isEmptyF = false)
    (heCm : Cm.isEmptyF = false) (heAd : Ad.isEmptyF = false)
    (heI : I.isEmptyF = false)
    (hdata : recalculateDerivedValues σ τ (sixCats R V P Cm Ad I) = some sd) :
    ∀ G W Pp Cc Aa M Cf : Frame,
      dget sd "receitas" = some G →
      dget sd "custos_variaveis" = some W →
      dget sd "despesas_pessoal" = some Pp →
      dget sd "despesas_comerciais" = some Cc →
      dget sd "despesas_administrativas" = some Aa →
      dget sd "margem_contribuicao" = some M →
      dget sd "fluxo_de_caixa" = some Cf →
      ∀ c ∈ σ L,
        M.colSum c = G.colSum c - W.colSum c ∧
        Cf.colSum c = M.colSum c - (Pp.colSum c + Cc.colSum c + Aa.colSum c) := by
  obtain ⟨out, hrec, hprops⟩ := recalcIdentity σ τ R V P Cm Ad I L hadm hext hτ
    hR hV hP hCm hAd hI heR heV heP heCm heAd heI
  cases Option.some.inj (hrec.symm.trans hdata)
  intro G W Pp Cc Aa M Cf hG hW hPp hCc hAa hM hCf c hc
  have hGr : dget sd "receitas" = some R := by
    rw [dget_recalc_ne hrec (by decide) (by decide) (by decide)]
    exact dget_sixCats_receitas R V P Cm Ad I
  have hWr : dget sd "custos_variaveis" = some V := by
    rw [dget_recalc_ne hrec (by decide) (by decide) (by decide)]
    exact dget_sixCats_vc R V P Cm Ad I
  have hPr : dget sd "despesas_pessoal" = some P := by
    rw [dget_recalc_ne hrec (by decide) (by decide) (by decide)]
    exact dget_sixCats_pes R V P Cm Ad I
  have hCr : dget sd "despesas_comerciais" = some Cm := by
    rw [dget_recalc_ne hrec (by decide) (by decide) (by decide)]
    exact dget_sixCats_com R V P Cm Ad I
  have hAr : dget sd "despesas_administrativas" = some Ad := by
    rw [dget_recalc_ne hrec (by decide) (by decide) (by decide)]
    exact dget_sixCats_adm R V P Cm Ad I
  cases Option.some.inj (hGr.symm.trans hG)
  cases Option.some.inj (hWr.symm.trans hW)
  cases Option.some.inj (hPr.symm.trans hPp)
  cases Option.some.inj (hCr.symm.trans hCc)
  cases Option.some.inj (hAr.symm.trans hAa)
  exact hprops M Cf hM hCf c hc

/-- The pessimistic adjustment on a fully-populated dataset, as an
explicit scaled dataset. -/
theorem pess_structured (σ : SetOrd) (τ : InterOrd) (R V P Cm Ad I : Frame)
    (p : Option Params) :
    generatePessimisticScenario σ τ (sixCats R V P Cm Ad I) p =
      recalculateDerivedValues σ τ (sixCats
        (scaleFrameNumeric (1 + getParam p Params.revenue_adjustment (-(15/100))) R)
        (scaleFrameNumeric (1 + getParam p Params.cost_adjustment (10/100)) V)
        (scaleFrameNumeric (1 + getParam p Params.expense_adjustment (10/100)) P)
        (scaleFrameNumeric (1 + getParam p Params.expense_adjustment (10/100)) Cm)
        (scaleFrameNumeric (1 + getParam p Params.expense_adjustment (10/100)) Ad)
        I) := by
  simp +decide only [generatePessimisticScenario, sixCats, REVENUE_CATEGORIES,
    VARIABLE_COST_CATEGORIES, FIXED_EXPENSE_CATEGORIES, List.foldl_cons,
    List.foldl_nil, dmodify, dget, dset, ite_true, ite_false]

/-- The optimistic adjustment on a fully-populated dataset, as an explicit
scaled dataset. -/
theorem opt_structured (σ : SetOrd) (τ : InterOrd) (R V P Cm Ad I : Frame)
    (p : Option Params) :
    generateOptimisticScenario σ τ (sixCats R V P Cm Ad I) p =
      recalculateDerivedValues σ τ (sixCats
        (scaleFrameNumeric (1 + getParam p Params.revenue_adjustment (20/100)) R)
        (scaleFrameNumeric (1 + getParam p Params.cost_adjustment (-(5/100))) V)
        (scaleFrameNumeric (1 + getParam p Params.expense_adjustment (-(5/100))) P)
        (scaleFrameNumeric (1 + getParam p Params.expense_adjustment (-(5/100))) Cm)
        (scaleFrameNumeric (1 + getParam p Params.expense_adjustment (-(5/100))) Ad)
        I) := by
  simp +decide only [generateOptimisticScenario, sixCats, REVENUE_CATEGORIES,
    VARIABLE_COST_CATEGORIES, FIXED_EXPENSE_CATEGORIES, List.foldl_cons,
    List.foldl_nil, dmodify, dget, dset, ite_true, ite_false]

/-- The aggressive adjustment on a fully-populated dataset, as an explicit
adjusted dataset (general parameters; the revenue arrays are non-empty so
the growth branch is taken). -/
theorem agg_structured (σ : SetOrd) (τ : InterOrd) (R V P Cm Ad I : Frame)
    (p : Option Params) (ig gr ia : ℚ) (G : List ℚ)
    (hig : ig = getParam p Params.initial_growth (30/100))
    (hgr : gr = getParam p Params.growth_rate (5/100))
    (hia : ia = getParam p Params.investment_adjustment (25/100))
    (hG : G = List.zipWith (fun n o => if o = 0 then 1 else n / o)
      (sumCategoryValues σ (sixCats (scaleRevenueAggressive ig gr R) V P Cm Ad
        (scaleFrameNumeric (1 + ia) I)) REVENUE_CATEGORIES).2
      (sumCategoryValues σ (sixCats R V P Cm Ad I) REVENUE_CATEGORIES).2)
    (hlen1 : (sumCategoryValues σ (sixCats R V P Cm Ad I)
      REVENUE_CATEGORIES).2.length ≠ 0)
    (hlen2 : (sumCategoryValues σ (sixCats (scaleRevenueAggressive ig gr R) V P Cm Ad
        (scaleFrameNumeric (1 + ia) I)) REVENUE_CATEGORIES).2.length ≠ 0) :
    generateAggressiveScenario σ τ (sixCats R V P Cm Ad I) p =
      recalculateDerivedValues σ τ (sixCats
        (scaleRevenueAggressive ig gr R)
        (applyGrowthFrom (80/100) G V V)
        (applyGrowthFrom (50/100) G P P)
        (applyGrowthFrom (50/100) G Cm Cm)
        (applyGrowthFrom (50/100) G Ad Ad)
        (scaleFrameNumeric (1 + ia) I)) := by
  subst hig
  subst hgr
  subst hia
  subst hG
  simp +decide only [generateAggressiveScenario, sixCats, REVENUE_CATEGORIES,
    INVESTMENT_CATEGORIES, VARIABLE_COST_CATEGORIES, FIXED_EXPENSE_CATEGORIES,
    List.foldl_cons, List.foldl_nil, dmodify, dget, dset, ite_true,
    ite_false] at hlen1 hlen2 ⊢
  split
  · rfl
  · rename_i hcon
    exact absurd ⟨hlen1, hlen2⟩ hcon

/-- C1 (amended): for every scenario output of `generate` (all four
scenario types, any parameters) on a fully-populated dataset whose six
category tables share the same numeric columns, and whose set-iteration
orders for the per-category sums and for the common-column intersection
agree, every common numeric column of the output satisfies
`margin[col] = revenue_sum[col] − variable_costs_sum[col]` and
`cash_flow[col] = margin[col] − (personnel + commercial + admin)[col]`,
the sums taken over the output's own (post-adjustment) base tables.  (In
general the code pairs position `i` of the intersection iteration order
with position `i` of the sum iteration order, so without the agreement
hypotheses the value written at a column need not be that column's
margin.) -/
theorem claim_C1 (σ : SetOrd) (τ : InterOrd) (R V P Cm Ad I : Frame)
    (L : List String) (st : String) (p : Option Params) (resp : GenResponse)
    (hadm : SetOrdAdm σ)
    (hext : ∀ xs ys, (∀ a, a ∈ xs ↔ a ∈ ys) → σ xs = σ ys)
    (hτ : τ [L, L, L, L, L, L] = σ L)
    (hR : R.numericCols = L) (hV : V.numericCols = L) (hP : P.numericCols = L)
    (hCm : Cm.numericCols = L) (hAd : Ad.numericCols = L) (hI : I.numericCols = L)
    (heR : R.isEmptyF = false) (heV : V.isEmptyF = false) (heP : P.isEmptyF = false)
    (heCm : Cm.isEmptyF = false) (heAd : Ad.isEmptyF = false)
    (heI : I.isEmptyF = false)
    (hnR : R.colNames.Nodup) (hnV : V.colNames.Nodup) (hnP : P.colNames.Nodup)
    (hnCm : Cm.colNames.Nodup) (hnAd : Ad.colNames.Nodup)
    (hst : st = "realista" ∨ st = "pessimista" ∨ st = "otimista" ∨ st = "agressivo")
    (hok : generateScenario σ τ (sixCats R V P Cm Ad I) st p = .ok resp) :
    ∀ G W Pp Cc Aa M Cf : Frame,
      dget resp.data "receitas" = some G →
      dget resp.data "custos_variaveis" = some W →
      dget resp.data "despesas_pessoal" = some Pp →
      dget resp.data "despesas_comerciais" = some Cc →
      dget resp.data "despesas_administrativas" = some Aa →
      dget resp.data "margem_contribuicao" = some M →
      dget resp.data "fluxo_de_caixa" = some Cf →
      ∀ c ∈ σ L,
        M.colSum c = G.colSum c - W.colSum c ∧
        Cf.colSum c = M.colSum c - (Pp.colSum c + Cc.colSum c + Aa.colSum c) := by
  by_cases hLs : σ L = []
  · intro G W Pp Cc Aa M Cf _ _ _ _ _ _ _ c hc
    rw [hLs] at hc
    exact absurd hc (List.not_mem_nil c)
  rcases hst with rfl | rfl | rfl | rfl
  · exact scenarioIdentity σ τ R V P Cm Ad I L resp.data hadm hext hτ
      hR hV hP hCm hAd hI heR heV heP heCm heAd heI (generate_realistic_ok hok)
  · have hdata := (pess_structured σ τ R V P Cm Ad I p).symm.trans
      (generate_pessimistic_ok hok)
    refine scenarioIdentity σ τ _ _ _ _ _ _ L resp.data hadm hext hτ
      ?_ ?_ ?_ ?_ ?_ ?_ ?_ ?_ ?_ ?_ ?_ ?_ hdata
    · exact (shape_scaleFrameNumeric _ R).2.1.trans hR
    · exact (shape_scaleFrameNumeric _ V).2.1.trans hV
    · exact (shape_scaleFrameNumeric _ P).2.1.trans hP
    · exact (shape_scaleFrameNumeric _ Cm).2.1.trans hCm
    · exact (shape_scaleFrameNumeric _ Ad).2.1.trans hAd
    · exact hI
    · exact (isEmptyF_scaleFrameNumeric _ R).trans heR
    · exact (isEmptyF_scaleFrameNumeric _ V).trans heV
    · exact (isEmptyF_scaleFrameNumeric _ P).trans heP
    · exact (isEmptyF_scaleFrameNumeric _ Cm).trans heCm
    · exact (isEmptyF_scaleFrameNumeric _ Ad).trans heAd
    · exact heI
  · have hdata := (opt_structured σ τ R V P Cm Ad I p).symm.trans
      (generate_optimistic_ok hok)
    refine scenarioIdentity σ τ _ _ _ _ _ _ L resp.data hadm hext hτ
      ?_ ?_ ?_ ?_ ?_ ?_ ?_ ?_ ?_ ?_ ?_ ?_ hdata
    · exact (shape_scaleFrameNumeric _ R).2.1.trans hR
    · exact (shape_scaleFrameNumeric _ V).2.1.trans hV
    · exact (shape_scaleFrameNumeric _ P).2.1.trans hP
    · exact (shape_scaleFrameNumeric _ Cm).2.1.trans hCm
    · exact (shape_scaleFrameNumeric _ Ad).2.1.trans hAd
    · exact hI
    · exact (isEmptyF_scaleFrameNumeric _ R).trans heR
    · exact (isEmptyF_scaleFrameNumeric _ V).trans heV
    · exact (isEmptyF_scaleFrameNumeric _ P).trans heP
    · exact (isEmptyF_scaleFrameNumeric _ Cm).trans heCm
    · exact (isEmptyF_scaleFrameNumeric _ Ad).trans heAd
    · exact heI
  · obtain ⟨ig, hig⟩ : ∃ x : ℚ, x = getParam p Params.initial_growth (30/100) :=
      ⟨_, rfl⟩
    obtain ⟨gr, hgr⟩ : ∃ x : ℚ, x = getParam p Params.growth_rate (5/100) :=
      ⟨_, rfl⟩
    obtain ⟨ia, hia⟩ : ∃ x : ℚ, x = getParam p Params.investment_adjustment (25/100) :=
      ⟨_, rfl⟩
    have hsagg := shape_scaleRevenueAggressive ig gr R hnR
    have hlen1 : (sumCategoryValues σ (sixCats R V P Cm Ad I)
        REVENUE_CATEGORIES).2.length ≠ 0 := by
      rw [sumCat_snd, sumHist_sixCats_rev, hR, List.length_map]
      intro h0
      exact hLs (List.eq_nil_of_length_eq_zero h0)
    have hlen2 : (sumCategoryValues σ (sixCats (scaleRevenueAggressive ig gr R)
        V P Cm Ad (scaleFrameNumeric (1 + ia) I)) REVENUE_CATEGORIES).2.length ≠ 0 := by
      rw [sumCat_snd, sumHist_sixCats_rev, hsagg.1, hR, List.length_map]
      intro h0
      exact hLs (List.eq_nil_of_length_eq_zero h0)
    obtain ⟨G, hG⟩ : ∃ x : List ℚ,
        x = List.zipWith (fun n o => if o = 0 then 1 else n / o)
          (sumCategoryValues σ (sixCats (scaleRevenueAggressive ig gr R) V P Cm Ad
            (scaleFrameNumeric (1 + ia) I)) REVENUE_CATEGORIES).2
          (sumCategoryValues σ (sixCats R V P Cm Ad I) REVENUE_CATEGORIES).2 :=
      ⟨_, rfl⟩
    have hdata := (agg_structured σ τ R V P Cm Ad I p ig gr ia G hig hgr hia hG
      hlen1 hlen2).symm.trans (generate_aggressive_ok hok)
    have hsV := shape_applyGrowthFrom (80/100) G V V hnV
    have hsP := shape_applyGrowthFrom (50/100) G P P hnP
    have hsCm := shape_applyGrowthFrom (50/100) G Cm Cm hnCm
    have hsAd := shape_applyGrowthFrom (50/100) G Ad Ad hnAd
    refine scenarioIdentity σ τ _ _ _ _ _ _ L resp.data hadm hext hτ
      ?_ ?_ ?_ ?_ ?_ ?_ ?_ ?_ ?_ ?_ ?_ ?_ hdata
    · exact hsagg.1.trans hR
    · exact hsV.1.trans hV
    · exact hsP.1.trans hP
    · exact hsCm.1.trans hCm
    · exact hsAd.1.trans hAd
    · exact (shape_scaleFrameNumeric _ I).2.1.trans hI
    · exact (isEmptyF_eq_of_shape hsagg.2.1 hsagg.2.2).trans heR
    · exact (isEmptyF_eq_of_shape hsV.2.1 hsV.2.2).trans heV
    · exact (isEmptyF_eq_of_shape hsP.2.1 hsP.2.2).trans heP
    · exact (isEmptyF_eq_of_shape hsCm.2.1 hsCm.2.2).trans heCm
    · exact (isEmptyF_eq_of_shape hsAd.2.1 hsAd.2.2).trans heAd
    · exact (isEmptyF_scaleFrameNumeric _ I).trans heI

/-- A fully-populated single-column dataset for the C1 witness. -/
def dC1w : Dataset :=
  [("receitas", ⟨1, [("Jan", Col.num [100])]⟩),
   ("custos_variaveis", ⟨1, [("Jan", Col.num [30])]⟩),
   ("despesas_pessoal", ⟨1, [("Jan", Col.num [10])]⟩),
   ("despesas_comerciais", ⟨1, [("Jan", Col.num [0])]⟩),
   ("despesas_administrativas", ⟨1, [("Jan", Col.num [0])]⟩),
   ("investimentos", ⟨1, [("Jan", Col.num [10])]⟩)]

/-- The realistic scenario output on `dC1w`. -/
def dC1wOut : Dataset := dC1w ++
  [("margem_contribuicao", ⟨1, [("Jan", Col.num [70])]⟩),
   ("fluxo_de_caixa", ⟨1, [("Jan", Col.num [60])]⟩),
   ("saldo_final", ⟨1, [("Jan", Col.num [60])]⟩)]

theorem recalc_dC1w : recalculateDerivedValues sigmaSort tauSort dC1w =
    some dC1wOut := by
  simp +decide only [recalculateDerivedValues, findCommonNumericColumns,
    createOrGetDataframe, sumCategoryValues, sumHist, sumColsAt, Frame.numericCols,
    Frame.colNames, Frame.colSum, Frame.colVals, colValsList, Col.isNum, Col.numVals,
    Frame.isEmptyF, npSub, npCumsum, cumsumFrom, updateDataframeWithValues, padTrim,
    setScalarCol, Frame.setNumCol, setColList, sigmaSort, tauSort, List.insertionSort,
    List.orderedInsert, strLE, strKey, keyLE, List.dedup, dC1w, dC1wOut,
    REVENUE_CATEGORIES, VARIABLE_COST_CATEGORIES, FIXED_EXPENSE_CATEGORIES, dget, dset,
    List.filter, List.map, List.foldl, List.zip, List.zipWith, List.take,
    List.replicate, List.flatMap, List.isEmpty, List.any, List.all, List.elem,
    List.length, List.append, ite_true, ite_false]
  norm_num

set_option maxRecDepth 8000 in
theorem genReal_dC1w : generateScenario sigmaSort tauSort dC1w "realista" none =
    .ok ⟨"realista", dC1wOut, ⟨100, 30, 10, 70, 60, 60, 70, 600⟩⟩ := by
  simp +decide only [generateScenario, generateRealisticScenario, recalc_dC1w,
    calculateScenarioMetrics, groupGrandSum, catGrandSum, finalBalanceMetric,
    Frame.grandSum, Col.isNum, Col.numVals, dget, dC1wOut, REVENUE_CATEGORIES,
    VARIABLE_COST_CATEGORIES, FIXED_EXPENSE_CATEGORIES, INVESTMENT_CATEGORIES,
    List.filter, List.map, List.append, List.getLast?, Option.getD]
  simp +decide only [dC1w, dget, List.append, List.map, List.filter, List.getLast?,
    Frame.grandSum, Col.isNum, Col.numVals, Option.getD, if_true, if_false,
    ite_true, ite_false, GenResponse.mk.injEq, Metrics.mk.injEq, Except.ok.injEq]
  norm_num

/-- C1 witness: on a fully-populated one-column dataset with the sorted
(hence agreeing) iteration orders, the realistic output's margin column
is revenue minus variable costs (70 = 100 − 30) and its cash-flow column
is margin minus the three fixed-expense sums (60 = 70 − 10). -/
theorem claim_C1_witness :
    Frame.colSum ⟨1, [("Jan", Col.num [70])]⟩ "Jan" =
      Frame.colSum ⟨1, [("Jan", Col.num [100])]⟩ "Jan" -
        Frame.colSum ⟨1, [("Jan", Col.num [30])]⟩ "Jan"
    ∧ Frame.colSum ⟨1, [("Jan", Col.num [60])]⟩ "Jan" =
      Frame.colSum ⟨1, [("Jan", Col.num [70])]⟩ "Jan" -
        (Frame.colSum ⟨1, [("Jan", Col.num [10])]⟩ "Jan" +
         Frame.colSum ⟨1, [("Jan", Col.num [0])]⟩ "Jan" +
         Frame.colSum ⟨1, [("Jan", Col.num [0])]⟩ "Jan") := by
  have h := claim_C1 sigmaSort tauSort
    ⟨1, [("Jan", Col.num [100])]⟩ ⟨1, [("Jan", Col.num [30])]⟩
    ⟨1, [("Jan", Col.num [10])]⟩ ⟨1, [("Jan", Col.num [0])]⟩
    ⟨1, [("Jan", Col.num [0])]⟩ ⟨1, [("Jan", Col.num [10])]⟩
    ["Jan"] "realista" none
    ⟨"realista", dC1wOut, ⟨100, 30, 10, 70, 60, 60, 70, 600⟩⟩
    sigmaSortAdm (fun _ _ hxy => sigmaSort_ext hxy) (by decide)
    (by decide) (by decide) (by decide) (by decide) (by decide) (by decide)
    (by decide) (by decide) (by decide) (by decide) (by decide) (by decide)
    (by decide) (by decide) (by decide) (by decide) (by decide)
    (Or.inl rfl) genReal_dC1w
  exact h ⟨1, [("Jan", Col.num [100])]⟩ ⟨1, [("Jan", Col.num [30])]⟩
    ⟨1, [("Jan", Col.num [10])]⟩ ⟨1, [("Jan", Col.num [0])]⟩
    ⟨1, [("Jan", Col.num [0])]⟩ ⟨1, [("Jan", Col.num [70])]⟩
    ⟨1, [("Jan", Col.num [60])]⟩ (by decide) (by decide) (by decide) (by decide)
    (by decide) (by decide) (by decide) "Jan" (by decide)

/-- A dataset whose revenue table has an extra numeric column `b` not
shared by the cost tables, for the C1 counterexample. -/
def dCx : Dataset :=
  [("receitas", ⟨1, [("a", Col.num [10]), ("b", Col.num [20])]⟩),
   ("custos_variaveis", ⟨1, [("a", Col.num [1])]⟩),
   ("despesas_pessoal", ⟨1, [("a", Col.num [2])]⟩)]

/-- The realistic scenario output on `dCx` under the reversed
set-iteration order. -/
def dCxOut : Dataset := dCx ++
  [("margem_contribuicao", ⟨1, [("a", Col.num [19])]⟩),
   ("fluxo_de_caixa", ⟨1, [("a", Col.num [17])]⟩),
   ("saldo_final", ⟨1, [("a", Col.num [17])]⟩)]

theorem recalc_dCx : recalculateDerivedValues sigmaRev tauRev dCx =
    some dCxOut := by
  simp +decide only [recalculateDerivedValues, findCommonNumericColumns,
    createOrGetDataframe, sumCategoryValues, sumHist, sumColsAt, Frame.numericCols,
    Frame.colNames, Frame.colSum, Frame.colVals, colValsList, Col.isNum, Col.numVals,
    Frame.isEmptyF, npSub, npCumsum, cumsumFrom, updateDataframeWithValues, padTrim,
    setScalarCol, Frame.setNumCol, setColList, sigmaRev, tauRev, sigmaSort, tauSort,
    List.insertionSort, List.orderedInsert, strLE, strKey, keyLE, List.dedup,
    List.reverse, List.reverseAux, dCx, dCxOut, REVENUE_CATEGORIES,
    VARIABLE_COST_CATEGORIES, FIXED_EXPENSE_CATEGORIES, dget, dset, List.filter,
    List.map, List.foldl, List.zip, List.zipWith, List.take, List.replicate,
    List.flatMap, List.isEmpty, List.any, List.all, List.elem, List.length,
    List.append, ite_true, ite_false, if_true, if_false]
  norm_num

set_option maxRecDepth 8000 in
theorem genReal_dCx : generateScenario sigmaRev tauRev dCx "realista" none =
    .ok ⟨"realista", dCxOut, ⟨30, 1, 2, 19, 17, 17, 190/3, 0⟩⟩ := by
  simp +decide only [generateScenario, generateRealisticScenario, recalc_dCx,
    calculateScenarioMetrics, groupGrandSum, catGrandSum, finalBalanceMetric,
    Frame.grandSum, Col.isNum, Col.numVals, dget, dCxOut, REVENUE_CATEGORIES,
    VARIABLE_COST_CATEGORIES, FIXED_EXPENSE_CATEGORIES, INVESTMENT_CATEGORIES,
    List.filter, List.map, List.append, List.getLast?, Option.getD]
  simp +decide only [dCx, dget, List.append, List.map, List.filter, List.getLast?,
    Frame.grandSum, Col.isNum, Col.numVals, Option.getD, if_true, if_false,
    ite_true, ite_false, GenResponse.mk.injEq, Metrics.mk.injEq, Except.ok.injEq]
  norm_num

/-- C1 counterexample (to the unqualified claim): under the (admissible)
reversed set-iteration order, the per-column sums are computed over the
revenue columns `[b, a]` while the single common column is `a`, so the
margin written at column `a` is `20 − 1 = 19` — revenue sum of column `b`
minus the variable-cost sum of column `a` — not the claim's
`revenue_sum[a] − variable_costs_sum[a] = 10 − 1 = 9`. -/
theorem claim_C1_counterexample :
    SetOrdAdm sigmaRev
    ∧ InterOrdAdm tauRev
    ∧ generateScenario sigmaRev tauRev dCx "realista" none =
        .ok ⟨"realista", dCxOut, ⟨30, 1, 2, 19, 17, 17, 190/3, 0⟩⟩
    ∧ dget dCxOut "margem_contribuicao" = some ⟨1, [("a", Col.num [19])]⟩
    ∧ dget dCxOut "receitas" = some ⟨1, [("a", Col.num [10]), ("b", Col.num [20])]⟩
    ∧ dget dCxOut "custos_variaveis" = some ⟨1, [("a", Col.num [1])]⟩
    ∧ Frame.colSum ⟨1, [("a", Col.num [19])]⟩ "a" = 19
    ∧ Frame.colSum ⟨1, [("a", Col.num [10]), ("b", Col.num [20])]⟩ "a" = 10
    ∧ Frame.colSum ⟨1, [("a", Col.num [1])]⟩ "a" = 1
    ∧ (19 : ℚ) ≠ 10 - 1 := by
  refine ⟨sigmaRevAdm, tauRevAdm, genReal_dCx, by decide, by decide, by decide,
    ?_, ?_, ?_, by norm_num⟩
  · simp +decide only [Frame.colSum, Frame.colVals, colValsList, Col.numVals,
      ite_true, ite_false]
    norm_num
  · simp +decide only [Frame.colSum, Frame.colVals, colValsList, Col.numVals,
      ite_true, ite_false]
    norm_num
  · simp +decide only [Frame.colSum, Frame.colVals, colValsList, Col.numVals,
      ite_true, ite_false]
    norm_num

end Habitus
